import Mathlib

/-!
# Mini-Task-Scheduler backend: authentication flow, sessions, lockout and rate limiting

A shallow embedding of the C sources under `backend/` (`production_server.c`,
`production_server_secure.c`, `production_server_v3.c`, and the JSON field extraction of
`simple_server.c`) together with the properties established about them.

Conventions of the embedding

* `time_t` values are `Int` (seconds); the clock value `now` that a C function obtains from
  `time(NULL)` is an explicit argument, read once per request.
* C `int` values are `Int`; every `int` arithmetic result goes through `wrapInt32`
  (two's-complement wrap-around), and a value fetched with `sqlite3_column_int` is truncated the
  same way.
* C strings are `String`; `strcmp(a, b) == 0` is `a = b`.
* The fixed-capacity global arrays (`users`, `sessions`, `rate_limits`) with their element counters
  are lists whose length is the counter; a pointer into an array is an index.
* `MUTEX_LOCK` / `EnterCriticalSection` are not modelled: every function runs atomically.
* `rand()` is an explicit argument giving the value drawn for each position.
* A function that may fail to return has an argument `fuel`, the number of nested calls it may
  make, and yields an `Option`: `none` when it has not returned within that number.
-/

namespace TaskScheduler

/-! ## Machine integers -/

/-- Two's-complement wrap of a mathematical integer into the range of a 32-bit C `int`. -/
def wrapInt32 (x : Int) : Int := (x + 2147483648) % 4294967296 - 2147483648

/-- Largest value of a C `int`. -/
def INT_MAX : Int := 2147483647

/-! ## `production_server.c`: in-memory rate limiter -/

namespace Production

/-- `#define RATE_LIMIT_WINDOW 60`. -/
def RATE_LIMIT_WINDOW : Int := 60

/-- `#define RATE_LIMIT_MAX_REQUESTS 100`. -/
def RATE_LIMIT_MAX_REQUESTS : Int := 100

/-- Capacity of the global `rate_limits[1000]` array. -/
def RATE_LIMIT_CAPACITY : Nat := 1000

/-- The `RateLimit` struct. -/
structure RateLimit where
  ip_address : String
  request_count : Int
  window_start : Int
  deriving DecidableEq, Repr

/-- The `for` loop of `check_rate_limit`: scan for the first entry of the address; on a hit the
entry is updated in place and the verdict returned, `none` means the loop ran to its end. -/
def check_rate_limit_scan (ip_address : String) (now : Int) :
    List RateLimit → Option (Int × List RateLimit)
  | [] => none
  | e :: rest =>
    if e.ip_address = ip_address then
      if now - e.window_start ≥ RATE_LIMIT_WINDOW then
        some (1, { e with request_count := 1, window_start := now } :: rest)
      else
        let count := wrapInt32 (e.request_count + 1)
        some (if count ≤ RATE_LIMIT_MAX_REQUESTS then 1 else 0,
              { e with request_count := count } :: rest)
    else
      match check_rate_limit_scan ip_address now rest with
      | some (allow, rest') => some (allow, e :: rest')
      | none => none

/-- `check_rate_limit` of `production_server.c`: the verdict (`1` allow, `0` deny) and the new
table. -/
def check_rate_limit (rate_limits : List RateLimit) (ip_address : String) (now : Int) :
    Int × List RateLimit :=
  match check_rate_limit_scan ip_address now rate_limits with
  | some r => r
  | none =>
    if rate_limits.length < RATE_LIMIT_CAPACITY then
      (1, rate_limits ++ [{ ip_address := ip_address, request_count := 1, window_start := now }])
    else
      (1, rate_limits)

/-- Consecutive calls of `check_rate_limit` for one address at the given times: the verdicts in
call order and the final table. -/
def check_rate_limit_calls (ip_address : String) :
    List RateLimit → List Int → List Int × List RateLimit
  | rl, [] => ([], rl)
  | rl, now :: times =>
    let r := check_rate_limit rl ip_address now
    let rs := check_rate_limit_calls ip_address r.2 times
    (r.1 :: rs.1, rs.2)

/-! ## `production_server.c`: credentials, users and sessions -/

/-- `#define MAX_SESSIONS 1000`. -/
def MAX_SESSIONS : Nat := 1000

/-- `#define SESSION_TIMEOUT 3600`. -/
def SESSION_TIMEOUT : Int := 3600

/-- `#define OTP_LENGTH 6`. -/
def OTP_LENGTH : Nat := 6

/-- The `User` struct. -/
structure User where
  id : Int
  username : String
  email : String
  password_hash : String
  salt : String
  mobile : String
  face_data : String
  created_at : Int
  last_login : Int
  failed_attempts : Int
  lockout_until : Int
  is_active : Int
  is_verified : Int
  deriving DecidableEq, Repr

/-- The `Session` struct. -/
structure Session where
  session_id : String
  username : String
  otp : String
  created_at : Int
  expires_at : Int
  step : Int
  is_active : Int
  ip_address : String
  user_agent : String
  deriving DecidableEq, Repr

/-- The global tables `users[0 .. user_count)` and `sessions[0 .. session_count)`. -/
structure ServerState where
  users : List User
  sessions : List Session
  deriving DecidableEq, Repr

/-- What a handler sends back: the HTTP status code and the body handed to
`send_response_with_security_headers`. -/
structure Response where
  status : Int
  body : String
  deriving DecidableEq, Repr

/-- The effect of `snprintf(buf, size, ...)` on the formatted text: at most `size - 1` characters
are kept. -/
def snprintf (size : Nat) (text : String) : String := String.mk (text.toList.take (size - 1))

/-- `send_json_error`: status code and JSON body with the message and the timestamp. -/
def send_json_error (status_code : Int) (message : String) (now : Int) : Response :=
  { status := status_code,
    body := snprintf 1024
      ("\x7b\"success\": false, \"error\": \"" ++ message ++ "\", \"timestamp\": " ++
        toString now ++ "\x7d") }

/-- `send_json_success`: status 200 and JSON body with the message and the timestamp. -/
def send_json_success (message : String) (now : Int) : Response :=
  { status := 200,
    body := snprintf 1024
      ("\x7b\"success\": true, \"message\": \"" ++ message ++ "\", \"timestamp\": " ++
        toString now ++ "\x7d") }

/-- Value of a `char` holding the given byte when it is promoted to `int` (`char` is signed). -/
def signedChar (c : Char) : Int :=
  if c.toNat < 128 then (c.toNat : Int) else (c.toNat : Int) - 256

/-- One round of the loop of `hash_password_with_salt`:
`hash_value = ((hash_value << 5) + hash_value) + c` in `unsigned long` (64-bit) arithmetic. -/
def hash_step (hash_value : Nat) (c : Char) : Nat :=
  (((hash_value : Int) * 32 + hash_value + signedChar c) % 18446744073709551616).toNat

/-- `hash_password_with_salt`: DJB2 checksum of the first 511 characters of password followed by
salt, printed with `%lx`. -/
def hash_password_with_salt (password salt : String) : String :=
  let salted_password := snprintf 512 (password ++ salt)
  snprintf 256 (String.mk (Nat.toDigits 16 (salted_password.toList.foldl hash_step 5381)))

/-- `verify_password`: recompute the hash and compare with `strcmp`. -/
def verify_password (password salt stored_hash : String) : Bool :=
  decide (hash_password_with_salt password salt = stored_hash)

/-- `generate_session_id`: 36 characters, dashes at positions 8, 13, 18 and 23, the others
drawn from 22 hexadecimal characters; `rand_at i` is the value of `rand()` drawn for position
`i`. -/
def generate_session_id (rand_at : Nat → Nat) : String :=
  String.mk ((List.range 36).map fun i =>
    if i = 8 ∨ i = 13 ∨ i = 18 ∨ i = 23 then '-'
    else "0123456789abcdefABCDEF".toList.getD (rand_at i % 22) '0')

/-- `generate_otp`: `OTP_LENGTH` characters, each `'0' + (rand() % 10)`. -/
def generate_otp (rand_at : Nat → Nat) : String :=
  String.mk ((List.range OTP_LENGTH).map fun i => Char.ofNat (48 + rand_at i % 10))

/-- `find_user_by_username`: index of the first user with that name whose `is_active` is
non-zero. -/
def find_user_by_username (users : List User) (username : String) : Option Nat :=
  users.findIdx? (fun u => decide (u.username = username ∧ u.is_active ≠ 0))

/-- `find_session`: index of the first session with that id which is active and whose
`expires_at` is after `now`. -/
def find_session (sessions : List Session) (session_id : String) (now : Int) : Option Nat :=
  sessions.findIdx? (fun s =>
    decide (s.session_id = session_id ∧ s.is_active ≠ 0 ∧ s.expires_at > now))

/-- `create_session`: `none` (the `NULL` result) when the table is full, otherwise the new
session, which is stored in slot `session_count`, and the extended table. -/
def create_session (sessions : List Session) (username ip_address user_agent : String)
    (now : Int) (rand_id rand_otp : Nat → Nat) : Option (Session × List Session) :=
  if sessions.length ≥ MAX_SESSIONS then none
  else
    let session : Session :=
      { session_id := generate_session_id rand_id,
        username := username,
        otp := generate_otp rand_otp,
        created_at := now,
        expires_at := now + SESSION_TIMEOUT,
        step := 1,
        is_active := 1,
        ip_address := String.mk (ip_address.toList.take 45),
        user_agent := String.mk (user_agent.toList.take 255) }
    some (session, sessions ++ [session])

/-- The body of `handle_login_step1` from the null check onwards, for the strings that the local
pointers `username` and `password` designate once both `extract_json_value` calls have returned
(`none` for `NULL`). In the source both pointers are the address of the one static buffer of
`extract_json_value`, so the body only ever runs with the same string for both:
`handle_login_step1_request` is the handler as a request enters it. -/
def handle_login_step1 (st : ServerState) (username password : Option String)
    (ip_address user_agent : String) (now : Int) (rand_id rand_otp : Nat → Nat) :
    Response × ServerState :=
  match username, password with
  | some username, some password =>
    match find_user_by_username st.users username with
    | none => (send_json_error 401 "Invalid credentials" now, st)
    | some i =>
      match st.users[i]? with
      | none => (send_json_error 401 "Invalid credentials" now, st)
      | some user =>
        if user.lockout_until > now then
          (send_json_error 403 "Account temporarily locked. Please try again later." now, st)
        else if verify_password password user.salt user.password_hash = false then
          let failed_attempts := wrapInt32 (user.failed_attempts + 1)
          let user1 : User :=
            { user with
              failed_attempts := failed_attempts,
              lockout_until := if failed_attempts ≥ 5 then now + 900 else user.lockout_until }
          (send_json_error 401 "Invalid credentials" now, { st with users := st.users.set i user1 })
        else
          let user1 : User :=
            { user with failed_attempts := 0, lockout_until := 0, last_login := now }
          let st1 : ServerState := { st with users := st.users.set i user1 }
          match create_session st1.sessions username ip_address user_agent now rand_id rand_otp with
          | none => (send_json_error 500 "Could not create session" now, st1)
          | some (session, sessions1) =>
            ({ status := 200,
               body := snprintf 1024
                 ("\x7b\"success\": true, \"session_id\": \"" ++ session.session_id ++
                  "\", \"message\": \"OTP sent to mobile\", \"otp\": \"" ++ session.otp ++
                  "\", \"expires_in\": " ++ toString SESSION_TIMEOUT ++ "\x7d") },
             { st1 with sessions := sessions1 })
  | _, _ => (send_json_error 400 "Missing username or password" now, st)

/-- The body of `handle_login_step2` from the null check onwards, for the strings that the local
pointers `session_id` and `otp` designate after both `extract_json_value` calls. In the source
both pointers are the address of the one static buffer, so the body only ever runs with the same
string for both: `handle_login_step2_request` is the handler as a request enters it. -/
def handle_login_step2 (st : ServerState) (session_id otp : Option String) (now : Int) :
    Response × ServerState :=
  match session_id, otp with
  | some session_id, some otp =>
    match find_session st.sessions session_id now with
    | none => (send_json_error 401 "Invalid session or step" now, st)
    | some i =>
      match st.sessions[i]? with
      | none => (send_json_error 401 "Invalid session or step" now, st)
      | some session =>
        if session.step ≠ 1 then (send_json_error 401 "Invalid session or step" now, st)
        else if session.otp ≠ otp then (send_json_error 401 "Invalid OTP" now, st)
        else
          (send_json_success "OTP verified, proceed to face recognition" now,
           { st with sessions := st.sessions.set i { session with step := 2 } })
  | _, _ => (send_json_error 400 "Missing session_id or otp" now, st)

/-- The token text `jwt_token_%s_%ld` that `handle_login_step3` formats from the session's
username and the clock. -/
def login_token (username : String) (now : Int) : String :=
  "jwt_token_" ++ username ++ "_" ++ toString now

/-- The body of `handle_login_step3` from the null check onwards (one `extract_json_value` call:
`session_id` is the value of that field). -/
def handle_login_step3 (st : ServerState) (session_id : Option String) (now : Int) :
    Response × ServerState :=
  match session_id with
  | some session_id =>
    match find_session st.sessions session_id now with
    | none => (send_json_error 401 "Invalid session or step" now, st)
    | some i =>
      match st.sessions[i]? with
      | none => (send_json_error 401 "Invalid session or step" now, st)
      | some session =>
        if session.step ≠ 2 then (send_json_error 401 "Invalid session or step" now, st)
        else
          ({ status := 200,
             body := snprintf 1024
               ("\x7b\"success\": true, \"token\": \"" ++ login_token session.username now ++
                "\", \"message\": \"Login successful\", \"user\": \"" ++ session.username ++
                "\"\x7d") },
           { st with sessions := st.sessions.set i { session with step := 3 } })
  | none => (send_json_error 400 "Missing session_id" now, st)

/-- The body of `handle_resend_otp` from the null check onwards (one `extract_json_value` call:
`session_id` is the value of that field). -/
def handle_resend_otp (st : ServerState) (session_id : Option String) (now : Int)
    (rand_otp : Nat → Nat) : Response × ServerState :=
  match session_id with
  | some session_id =>
    match find_session st.sessions session_id now with
    | none => (send_json_error 401 "Invalid session" now, st)
    | some i =>
      match st.sessions[i]? with
      | none => (send_json_error 401 "Invalid session" now, st)
      | some session =>
        let session1 : Session := { session with otp := generate_otp rand_otp }
        ({ status := 200,
           body := snprintf 1024
             ("\x7b\"success\": true, \"message\": \"OTP resent\", \"otp\": \"" ++
              session1.otp ++ "\"\x7d") },
         { st with sessions := st.sessions.set i session1 })
  | none => (send_json_error 400 "Missing session_id" now, st)

/-- `cleanup_expired_sessions`: every session whose `expires_at` is before `now` gets
`is_active = 0`. -/
def cleanup_expired_sessions (st : ServerState) (now : Int) : ServerState :=
  { st with
    sessions := st.sessions.map fun s => if s.expires_at < now then { s with is_active := 0 } else s }

/-- One call into the login flow or the expiry sweep, with everything the call reads from its
environment (request fields, clock, random draws). -/
inductive Call where
  | login_step1 (username password : Option String) (ip_address user_agent : String) (now : Int)
      (rand_id rand_otp : Nat → Nat)
  | login_step2 (session_id otp : Option String) (now : Int)
  | login_step3 (session_id : Option String) (now : Int)
  | resend_otp (session_id : Option String) (now : Int) (rand_otp : Nat → Nat)
  | cleanup (now : Int)

/-- The state after one call. -/
def Call.run (st : ServerState) : Call → ServerState
  | .login_step1 u p ip ua now r1 r2 => (handle_login_step1 st u p ip ua now r1 r2).2
  | .login_step2 sid otp now => (handle_login_step2 st sid otp now).2
  | .login_step3 sid now => (handle_login_step3 st sid now).2
  | .resend_otp sid now r => (handle_resend_otp st sid now r).2
  | .cleanup now => cleanup_expired_sessions st now

/-- The state after a sequence of calls, in order. -/
def run_calls (st : ServerState) (calls : List Call) : ServerState :=
  calls.foldl Call.run st

/-- The step of a session is one of the three states of the flow (1 awaiting the OTP, 2 OTP
verified, 3 authenticated). -/
def valid_step (s : Session) : Prop := s.step = 1 ∨ s.step = 2 ∨ s.step = 3

/-- Slot by slot, `after` still holds every session of `before`, none of them at a lower step. -/
def sessions_advance (before after : List Session) : Prop :=
  ∀ (i : Nat) (s : Session), before[i]? = some s →
    ∃ s1, after[i]? = some s1 ∧ s1.session_id = s.session_id ∧ s.step ≤ s1.step

/-! ### Registration: input validation and `handle_register`

The `<ctype.h>` predicates are those of the C locale; a `char` outside the ASCII range belongs to
none of the classes. -/

/-- `#define MAX_USERS 10000`. -/
def MAX_USERS : Nat := 10000

/-- `isupper` in the C locale: `A` to `Z`. -/
def isupper (c : Char) : Bool := decide (65 ≤ c.toNat ∧ c.toNat ≤ 90)

/-- `islower` in the C locale: `a` to `z`. -/
def islower (c : Char) : Bool := decide (97 ≤ c.toNat ∧ c.toNat ≤ 122)

/-- `isdigit`: `0` to `9`. -/
def isdigit (c : Char) : Bool := decide (48 ≤ c.toNat ∧ c.toNat ≤ 57)

/-- `isalnum` in the C locale: a letter or a digit. -/
def isalnum (c : Char) : Bool := isupper c || islower c || isdigit c

/-- `ispunct` in the C locale: the printable ASCII characters that are neither a space nor
alphanumeric (codes 33 to 47, 58 to 64, 91 to 96 and 123 to 126). -/
def ispunct (c : Char) : Bool :=
  decide ((33 ≤ c.toNat ∧ c.toNat ≤ 47) ∨ (58 ≤ c.toNat ∧ c.toNat ≤ 64) ∨
    (91 ≤ c.toNat ∧ c.toNat ≤ 96) ∨ (123 ≤ c.toNat ∧ c.toNat ≤ 126))

/-- `is_valid_username`: 3 to 63 characters, each alphanumeric or one of `_`, `.`, `@`. -/
def is_valid_username (username : Option String) : Bool :=
  match username with
  | none => false
  | some username =>
    if username.length < 3 ∨ username.length > 63 then false
    else username.toList.all fun c => isalnum c || c == '_' || c == '.' || c == '@'

/-- `is_valid_email`: 5 to 127 characters; the first `@` is neither the first nor the last
character; the first `.` from that `@` on exists, does not follow the `@` directly and is not the
last character. -/
def is_valid_email (email : Option String) : Bool :=
  match email with
  | none => false
  | some email =>
    let chars := email.toList
    if chars.length < 5 ∨ chars.length > 127 then false
    else
      match chars.findIdx? (fun c => c == '@') with
      | none => false
      | some at_pos =>
        if at_pos = 0 ∨ at_pos = chars.length - 1 then false
        else
          match (chars.drop at_pos).findIdx? (fun c => c == '.') with
          | none => false
          | some dot_off =>
            if dot_off = 1 ∨ at_pos + dot_off = chars.length - 1 then false else true

/-- The four flags `has_upper`, `has_lower`, `has_digit`, `has_special` of
`is_strong_password`. -/
structure PasswordFlags where
  has_upper : Bool
  has_lower : Bool
  has_digit : Bool
  has_special : Bool
  deriving DecidableEq, Repr

/-- One round of the loop of `is_strong_password`: the `if` / `else if` chain over the
character classes. -/
def password_flags_step (flags : PasswordFlags) (c : Char) : PasswordFlags :=
  if isupper c then { flags with has_upper := true }
  else if islower c then { flags with has_lower := true }
  else if isdigit c then { flags with has_digit := true }
  else if ispunct c then { flags with has_special := true }
  else flags

/-- `is_strong_password`: at least 8 characters and all four flags raised by the loop. -/
def is_strong_password (password : Option String) : Bool :=
  match password with
  | none => false
  | some password =>
    if password.length < 8 then false
    else
      let flags := password.toList.foldl password_flags_step
        { has_upper := false, has_lower := false, has_digit := false, has_special := false }
      flags.has_upper && flags.has_lower && flags.has_digit && flags.has_special

/-- `generate_salt(salt, length)`: `length - 1` characters drawn from 62 alphanumeric
characters; `rand_at i` is the value of `rand()` drawn for position `i`. -/
def generate_salt (rand_at : Nat → Nat) (length : Nat) : String :=
  String.mk ((List.range (length - 1)).map fun i =>
    "abcdefghijklmnopqrstuvwxyzABCDEFGHIJKLMNOPQRSTUVWXYZ0123456789".toList.getD
      (rand_at i % 62) 'a')

/-- The body of `handle_register` from the null check onwards, for the strings that the local
pointers `username`, `email`, `password` and `mobile` designate after the four
`extract_json_value` calls (`none` for `NULL`). In the source the four pointers are the address
of the one static buffer, so the body only ever runs with the same string for all four:
`handle_register_request` is the handler as a request enters it. That string has passed
`is_valid_username`, so it has at most 63 characters and fits `username[64]` and `email[128]`;
`strcpy(user->mobile, mobile)` writes past `mobile[16]` into the adjacent `face_data` when the
string has 16 characters or more: read as C strings afterwards, `mobile` is the whole string and
`face_data` is what follows its first 16 characters. -/
def handle_register (st : ServerState) (username email password mobile : Option String)
    (now : Int) (rand_salt : Nat → Nat) : Response × ServerState :=
  match username, email, password, mobile with
  | some username, some email, some password, some mobile =>
    if is_valid_username (some username) = false then
      (send_json_error 400 "Invalid username format" now, st)
    else if is_valid_email (some email) = false then
      (send_json_error 400 "Invalid email format" now, st)
    else if is_strong_password (some password) = false then
      (send_json_error 400
        "Password must be at least 8 characters with uppercase, lowercase, number, and special character"
        now, st)
    else
      match find_user_by_username st.users username with
      | some _ => (send_json_error 400 "Username already exists" now, st)
      | none =>
        if st.users.length ≥ MAX_USERS then (send_json_error 500 "User limit reached" now, st)
        else
          let salt := generate_salt rand_salt 32
          let user : User :=
            { id := wrapInt32 (st.users.length + 1),
              username := username,
              email := email,
              password_hash := hash_password_with_salt password salt,
              salt := salt,
              mobile := mobile,
              face_data := String.mk (mobile.toList.drop 16),
              created_at := now,
              last_login := 0,
              failed_attempts := 0,
              lockout_until := 0,
              is_active := 1,
              is_verified := 0 }
          (send_json_success "User registered successfully" now,
           { st with users := st.users ++ [user] })
  | _, _, _, _ => (send_json_error 400 "Missing required fields" now, st)

/-! ### JSON field extraction and the handlers as they are entered

`extract_json_value` returns either `NULL` or the address of its one `static char value[512]`.
The embedding keeps the content of that buffer as an explicit value: a call yields whether the
pointer it returns is non-null, and the content of the buffer after the call. Every non-null
pointer obtained from the function designates the buffer, hence its latest content. -/

/-- `strstr(haystack, needle)`: the rest of `haystack` from the first occurrence of `needle`
on. -/
def strstr : List Char → List Char → Option (List Char)
  | [], needle => if needle = [] then some [] else none
  | c :: rest, needle =>
    if needle.isPrefixOf (c :: rest) then some (c :: rest) else strstr rest needle

/-- The copy loop of `extract_json_value`, `room` being the number of characters the buffer can
still take: copy up to the closing quote; a backslash followed by a character is skipped and that
character copied. -/
def copy_json_string : List Char → Nat → List Char
  | [], _ => []
  | _, 0 => []
  | c :: rest, room + 1 =>
    if c = Char.ofNat 34 then []
    else if c = Char.ofNat 92 then
      match rest with
      | [] => [c]
      | d :: rest1 => d :: copy_json_string rest1 room
    else c :: copy_json_string rest room

/-- What `extract_json_value` writes into its buffer for `key`, or `none` when it returns `NULL`
(key pattern not found, or the value does not start with a double quote). -/
def json_string_value (json key : String) : Option String :=
  let search_key := snprintf 128 (String.mk [Char.ofNat 34] ++ key ++ String.mk [Char.ofNat 34, ':'])
  match strstr json.toList search_key.toList with
  | none => none
  | some pos =>
    match ((pos.drop search_key.length).dropWhile fun c => c = ' ' ∨ c = Char.ofNat 9) with
    | [] => none
    | c :: rest =>
      if c = Char.ofNat 34 then some (String.mk (copy_json_string rest 511)) else none

/-- `extract_json_value`: `value` is the content of the static buffer before the call; the result
tells whether the returned pointer is non-null and gives the content of the buffer after the
call. -/
def extract_json_value (value json key : String) : Bool × String :=
  match json_string_value json key with
  | some written => (true, written)
  | none => (false, value)

/-- `handle_login_step1` as entered with the request body: the two `extract_json_value` calls,
then the rest of the handler on what the two pointers designate. -/
def handle_login_step1_request (st : ServerState) (value body ip_address user_agent : String)
    (now : Int) (rand_id rand_otp : Nat → Nat) : Response × ServerState :=
  let username := extract_json_value value body "username"
  let password := extract_json_value username.2 body "password"
  handle_login_step1 st
    (if username.1 then some password.2 else none)
    (if password.1 then some password.2 else none)
    ip_address user_agent now rand_id rand_otp

/-- `handle_login_step2` as entered with the request body. -/
def handle_login_step2_request (st : ServerState) (value body : String) (now : Int) :
    Response × ServerState :=
  let session_id := extract_json_value value body "session_id"
  let otp := extract_json_value session_id.2 body "otp"
  handle_login_step2 st
    (if session_id.1 then some otp.2 else none)
    (if otp.1 then some otp.2 else none)
    now

/-- `handle_login_step3` as entered with the request body. -/
def handle_login_step3_request (st : ServerState) (value body : String) (now : Int) :
    Response × ServerState :=
  let session_id := extract_json_value value body "session_id"
  handle_login_step3 st (if session_id.1 then some session_id.2 else none) now

/-- `handle_resend_otp` as entered with the request body. -/
def handle_resend_otp_request (st : ServerState) (value body : String) (now : Int)
    (rand_otp : Nat → Nat) : Response × ServerState :=
  let session_id := extract_json_value value body "session_id"
  handle_resend_otp st (if session_id.1 then some session_id.2 else none) now rand_otp

/-- `handle_register` as entered with the request body: the four `extract_json_value` calls,
then the rest of the handler on what the four pointers designate. -/
def handle_register_request (st : ServerState) (value body : String) (now : Int)
    (rand_salt : Nat → Nat) : Response × ServerState :=
  let username := extract_json_value value body "username"
  let email := extract_json_value username.2 body "email"
  let password := extract_json_value email.2 body "password"
  let mobile := extract_json_value password.2 body "mobile"
  handle_register st
    (if username.1 then some mobile.2 else none)
    (if email.1 then some mobile.2 else none)
    (if password.1 then some mobile.2 else none)
    (if mobile.1 then some mobile.2 else none)
    now rand_salt

/-- The content of the static buffer once a handler has called `extract_json_value` for each of
`keys` in turn. -/
def buffer_after (value body : String) (keys : List String) : String :=
  keys.foldl (fun value key => (extract_json_value value body key).2) value

/-! ### Sequences of requests -/

/-- One request to a handler, with its body and everything else the handler reads from its
environment. -/
inductive Request where
  | register (body : String) (now : Int) (rand_salt : Nat → Nat)
  | login_step1 (body ip_address user_agent : String) (now : Int) (rand_id rand_otp : Nat → Nat)
  | login_step2 (body : String) (now : Int)
  | login_step3 (body : String) (now : Int)
  | resend_otp (body : String) (now : Int) (rand_otp : Nat → Nat)

/-- The server between two requests: the content of the static buffer of `extract_json_value`
and the global data. -/
structure Server where
  value : String
  data : ServerState

/-- The response to one request and the server afterwards. -/
def Request.serve (server : Server) : Request → Response × Server
  | .register body now rand_salt =>
    ((handle_register_request server.data server.value body now rand_salt).1,
     { value := buffer_after server.value body ["username", "email", "password", "mobile"],
       data := (handle_register_request server.data server.value body now rand_salt).2 })
  | .login_step1 body ip_address user_agent now rand_id rand_otp =>
    ((handle_login_step1_request server.data server.value body ip_address user_agent now rand_id
        rand_otp).1,
     { value := buffer_after server.value body ["username", "password"],
       data := (handle_login_step1_request server.data server.value body ip_address user_agent now
         rand_id rand_otp).2 })
  | .login_step2 body now =>
    ((handle_login_step2_request server.data server.value body now).1,
     { value := buffer_after server.value body ["session_id", "otp"],
       data := (handle_login_step2_request server.data server.value body now).2 })
  | .login_step3 body now =>
    ((handle_login_step3_request server.data server.value body now).1,
     { value := buffer_after server.value body ["session_id"],
       data := (handle_login_step3_request server.data server.value body now).2 })
  | .resend_otp body now rand_otp =>
    ((handle_resend_otp_request server.data server.value body now rand_otp).1,
     { value := buffer_after server.value body ["session_id"],
       data := (handle_resend_otp_request server.data server.value body now rand_otp).2 })

/-- The responses to consecutive requests, in order, and the server after the last one. -/
def serve_all (server : Server) : List Request → List Response × Server
  | [] => ([], server)
  | request :: rest =>
    ((request.serve server).1 :: (serve_all (request.serve server).2 rest).1,
     (serve_all (request.serve server).2 rest).2)

/-! ### Sequences of `create_session` and `cleanup_expired_sessions` calls -/

/-- One call of `create_session` or of `cleanup_expired_sessions`, with its environment. -/
inductive SessionOp where
  | create (username ip_address user_agent : String) (now : Int) (rand_id rand_otp : Nat → Nat)
  | cleanup (now : Int)

/-- The session table after one call; a `create_session` that returns `NULL` writes nothing. -/
def SessionOp.run (sessions : List Session) : SessionOp → List Session
  | .create username ip_address user_agent now rand_id rand_otp =>
    match create_session sessions username ip_address user_agent now rand_id rand_otp with
    | some (_, sessions1) => sessions1
    | none => sessions
  | .cleanup now =>
    (cleanup_expired_sessions { users := [], sessions := sessions } now).sessions

/-- The session table after a sequence of calls, in order. -/
def run_session_ops (sessions : List Session) (ops : List SessionOp) : List Session :=
  ops.foldl SessionOp.run sessions

/-! ### Concrete data used to exercise the definitions -/

/-- A registered user `alice` whose password is `Abc123!@`. -/
def sample_user : User :=
  { id := 1, username := "alice", email := "a@x.com",
    password_hash := hash_password_with_salt "Abc123!@" "pepper", salt := "pepper",
    mobile := "+1555", face_data := "", created_at := 0, last_login := 0,
    failed_attempts := 0, lockout_until := 0, is_active := 1, is_verified := 0 }

/-- A random source that draws `i` for position `i`. -/
def sample_rand : Nat → Nat := fun i => i

/-- A session of `alice` created at time `0`, at the given step. -/
def sample_session (step : Int) : Session :=
  { session_id := "sid-1", username := "alice", otp := "123456", created_at := 0,
    expires_at := 3600, step := step, is_active := 1, ip_address := "10.0.0.1",
    user_agent := "agent" }

/-- A session of `alice` created at time `0`, active, with the given id, OTP, expiry time and
step. -/
def sample_session_of (session_id otp : String) (expires_at step : Int) : Session :=
  { session_id := session_id, username := "alice", otp := otp, created_at := 0,
    expires_at := expires_at, step := step, is_active := 1, ip_address := "10.0.0.1",
    user_agent := "agent" }

/-- A rate-limit table filled to its capacity with entries of `10.0.0.1`. -/
def full_table : List RateLimit :=
  List.replicate 1000 { ip_address := "10.0.0.1", request_count := 1, window_start := 0 }

/-- A session table filled to `MAX_SESSIONS` with sessions that expired at time 3600. -/
def full_sessions : List Session := List.replicate 1000 (sample_session 1)

/-- The body of a login request of `alice` with her password. -/
def sample_login_body : String :=
  "\x7b\"username\": \"alice\", \"password\": \"Abc123!@\"\x7d"

/-- The body of a step-2 request naming the session `sid-1` and its OTP. -/
def sample_otp_body : String :=
  "\x7b\"session_id\": \"sid-1\", \"otp\": \"123456\"\x7d"

/-- The user `alice` with the given count of failed attempts and lock time. -/
def sample_locked_user (failed_attempts lockout_until : Int) : User :=
  { sample_user with failed_attempts := failed_attempts, lockout_until := lockout_until }

/-- A registered user whose username and password are both `Abcdef1@`, with the given count of
failed attempts. -/
def sample_twin_user (failed_attempts : Int) : User :=
  { id := 2, username := "Abcdef1@", email := "Abcdef1@",
    password_hash := hash_password_with_salt "Abcdef1@" "pepper", salt := "pepper",
    mobile := "Abcdef1@", face_data := "", created_at := 0, last_login := 0,
    failed_attempts := failed_attempts, lockout_until := 0, is_active := 1, is_verified := 0 }

/-- The body of a login request whose two fields are both `Abcdef1@`. -/
def sample_twin_body : String :=
  "\x7b\"username\": \"Abcdef1@\", \"password\": \"Abcdef1@\"\x7d"

/-- The body of a login request of `alice` whose password field is `alice` too. -/
def sample_wrong_body : String :=
  "\x7b\"username\": \"alice\", \"password\": \"alice\"\x7d"

/-- A server with the single user given and the full session table `full_sessions`. -/
def sample_full_state (user : User) : ServerState :=
  { users := [user], sessions := full_sessions }

/-- A JSON object with the given string fields, in the layout `\x7b"key": "value", ...\x7d`. -/
def json_object (fields : List (String × String)) : String :=
  "\x7b" ++
    ", ".intercalate
      (fields.map fun field =>
        String.mk [Char.ofNat 34] ++ field.1 ++ String.mk [Char.ofNat 34] ++ ": " ++
          String.mk [Char.ofNat 34] ++ field.2 ++ String.mk [Char.ofNat 34]) ++
    "\x7d"

/-- A login request at time `now` from `10.0.0.1`, with the two fields given. -/
def sample_login (username password : String) (now : Int) : Request :=
  Request.login_step1 (json_object [("username", username), ("password", password)]) "10.0.0.1"
    "agent" now sample_rand sample_rand

/-- A step-2 request at time `now` with the two fields given. -/
def sample_step2 (session_id otp : String) (now : Int) : Request :=
  Request.login_step2 (json_object [("session_id", session_id), ("otp", otp)]) now

/-- A registration request at time `now` with the four fields given. -/
def sample_registration (username email password mobile : String) (now : Int) : Request :=
  Request.register
    (json_object
      [("username", username), ("email", email), ("password", password), ("mobile", mobile)])
    now sample_rand

/-- A server with the user `alice` and the given sessions. -/
def sample_state (sessions : List Session) : ServerState :=
  { users := [sample_user], sessions := sessions }

end Production

/-! ## `production_server_secure.c`: rate limiter on the `rate_limits` table

The SQL statements are embedded by their meaning on the table. `ip_address` is the primary key,
so the table is a finite map from addresses to rows. A column that the code reads with
`sqlite3_column_int` is truncated to a C `int` when it is read; one read with
`sqlite3_column_int64` is a `time_t`.
(`sqlite3.c` in the repository is a demo stub whose `sqlite3_step` never yields a row; the
statements are given the meaning their SQL text has.) -/

namespace Secure

/-- `#define RATE_LIMIT_WINDOW 60`. -/
def RATE_LIMIT_WINDOW : Int := 60

/-- `#define RATE_LIMIT_REQUESTS 100`. -/
def RATE_LIMIT_REQUESTS : Int := 100

/-- One row of the `rate_limits` table, without its key `ip_address`. -/
structure RateLimitRow where
  window_start : Int
  request_count : Int
  blocked_until : Int
  violation_count : Int
  total_requests : Int
  first_seen : Int
  last_seen : Int
  deriving DecidableEq, Repr

/-- The `rate_limits` table: the row stored under each address, if any. -/
abbrev RateLimitTable := String → Option RateLimitRow

/-- The table with the row of `ip_address` replaced (or created). -/
def RateLimitTable.put (table : RateLimitTable) (ip_address : String) (row : RateLimitRow) :
    RateLimitTable :=
  fun key => if key = ip_address then some row else table key

/-- The enumeration `log_level_t`. -/
inductive LogLevel where
  | LOG_INFO
  | LOG_WARNING
  | LOG_ERROR
  | LOG_SECURITY
  | LOG_CRITICAL
  deriving DecidableEq, Repr

/-- The `risk_score` that the `switch` of `security_log` gives each level. -/
def risk_score : LogLevel → Int
  | .LOG_INFO => 1
  | .LOG_WARNING => 3
  | .LOG_ERROR => 5
  | .LOG_SECURITY => 7
  | .LOG_CRITICAL => 10

mutual

/-- `security_log(level, ...)`: `some ()` when the call returns, `none` when it has not returned
within `fuel` nested calls. After writing its line (to the `security_logs` table and to
`security.log`, which nothing modelled here reads) it calls `handle_security_incident` when
`risk_score >= 7`. -/
def security_log : Nat → LogLevel → Option Unit
  | 0, _ => none
  | fuel + 1, level =>
    if risk_score level ≥ 7 then handle_security_incident fuel else some ()

/-- `handle_security_incident`: prints the incident and calls
`security_log(LOG_CRITICAL, ...)`. -/
def handle_security_incident : Nat → Option Unit
  | 0 => none
  | fuel + 1 => security_log fuel LogLevel.LOG_CRITICAL

end

/-- `check_rate_limit` of `production_server_secure.c`: the verdict `allowed` that the call
returns (`none` when the call has not returned within `fuel` nested calls of `security_log`) and
the table afterwards. `lookup_ok` tells whether `sqlite3_prepare_v2` succeeds for the `SELECT`,
`write_ok` whether it succeeds for the one `UPDATE` or `INSERT` the call goes on to issue.
`request_count` and `violation_count` are fetched with `sqlite3_column_int`. The writes precede
the `security_log` call of their branch, so they are in the table whether or not the call
returns. -/
def check_rate_limit (fuel : Nat) (table : RateLimitTable) (lookup_ok write_ok : Bool)
    (ip_address : String) (now : Int) : Option Int × RateLimitTable :=
  if lookup_ok then
    match table ip_address with
    | some row =>
      let window_start := row.window_start
      let request_count := wrapInt32 row.request_count
      let blocked_until := row.blocked_until
      let violation_count := wrapInt32 row.violation_count
      if blocked_until > now then
        ((security_log fuel LogLevel.LOG_WARNING).map fun _ => 0, table)
      else if now - window_start > RATE_LIMIT_WINDOW then
        (some 1,
         if write_ok then
           table.put ip_address { row with window_start := now, request_count := 1, last_seen := now }
         else table)
      else if request_count ≥ RATE_LIMIT_REQUESTS then
        let block_duration := wrapInt32 (300 * wrapInt32 (violation_count + 1))
        let block_until := now + block_duration
        ((security_log fuel LogLevel.LOG_SECURITY).map fun _ => 0,
         if write_ok then
           table.put ip_address
             { row with
               blocked_until := block_until,
               violation_count := wrapInt32 (violation_count + 1),
               last_seen := now }
         else table)
      else
        (some 1,
         if write_ok then
           table.put ip_address
             { row with
               request_count := row.request_count + 1,
               total_requests := row.total_requests + 1,
               last_seen := now }
         else table)
    | none =>
      (some 1,
       if write_ok then
         table.put ip_address
           { window_start := now, request_count := 1, blocked_until := 0, violation_count := 0,
             total_requests := 1, first_seen := now, last_seen := now }
       else table)
  else
    (some 1, table)

/-- The environment of one `check_rate_limit` call: the clock and whether the statements can be
prepared. -/
structure RateCall where
  now : Int
  lookup_ok : Bool
  write_ok : Bool
  deriving DecidableEq, Repr

/-- Consecutive `check_rate_limit` calls for one address in one run of the server: the verdicts
in order and the table afterwards. A call that does not return ends the run; what it wrote
before stays in the table. -/
def check_rate_limit_calls (fuel : Nat) (table : RateLimitTable) (ip_address : String) :
    List RateCall → List (Option Int) × RateLimitTable
  | [] => ([], table)
  | call :: rest =>
    match check_rate_limit fuel table call.lookup_ok call.write_ok ip_address call.now with
    | (none, table1) => ([none], table1)
    | (some allowed, table1) =>
      (some allowed :: (check_rate_limit_calls fuel table1 ip_address rest).1,
       (check_rate_limit_calls fuel table1 ip_address rest).2)

/-! ### Sessions and CSRF tokens in `production_server_secure.c` -/

/-- One row of the `sessions` table, without its key `session_id`. -/
structure SessionRow where
  user_id : String
  csrf_token : String
  ip_address : String
  user_agent : String
  created_at : Int
  last_accessed : Int
  expires_at : Int
  is_active : Int
  login_method : String
  deriving DecidableEq, Repr

/-- The `sessions` table: the row stored under each session id, if any. -/
abbrev SessionTable := String → Option SessionRow

/-- The table with the row of `session_id` replaced (or created). -/
def SessionTable.put (table : SessionTable) (session_id : String) (row : SessionRow) :
    SessionTable :=
  fun key => if key = session_id then some row else table key

/-- `validate_session`: the result `valid` (`none` when the call has not returned within `fuel`
nested calls of `security_log`) and the table afterwards. The row is selected by
`session_id = ? AND expires_at > ?` (bound to `now`), then the stored address and `is_active`
(fetched with `sqlite3_column_int`) are tested; on success `last_accessed` is updated, otherwise
`security_log(LOG_WARNING, ...)` is called. `lookup_ok` and `write_ok` tell whether the `SELECT`
and the `UPDATE` can be prepared. -/
def validate_session (fuel : Nat) (sessions : SessionTable) (lookup_ok write_ok : Bool)
    (session_id ip_address : Option String) (now : Int) : Option Int × SessionTable :=
  match session_id, ip_address with
  | some session_id, some ip_address =>
    if lookup_ok then
      match sessions session_id with
      | some row =>
        if row.expires_at > now then
          if row.ip_address = ip_address ∧ wrapInt32 row.is_active ≠ 0 then
            (some 1,
             if write_ok then sessions.put session_id { row with last_accessed := now }
             else sessions)
          else ((security_log fuel LogLevel.LOG_WARNING).map fun _ => 0, sessions)
        else (some 0, sessions)
      | none => (some 0, sessions)
    else (some 0, sessions)
  | _, _ => (some 0, sessions)

/-- The value of `valid` at the end of the lookup of `validate_csrf_token`: the row is selected
by `session_id = ? AND is_active = 1`, then the stored token is compared with the provided
one. -/
def csrf_token_valid (sessions : SessionTable) (lookup_ok : Bool)
    (session_id provided_token : String) : Int :=
  if lookup_ok then
    match sessions session_id with
    | some row =>
      if row.is_active = 1 then
        if row.csrf_token = provided_token then 1 else 0
      else 0
    | none => 0
  else 0

/-- `validate_csrf_token`: the result (`none` when the call has not returned within `fuel`
nested calls of `security_log`). With a `NULL` argument it returns 0 at once; otherwise it
computes `valid`, calls `security_log(LOG_SECURITY, ...)` when `valid` is 0, and returns
`valid`. The function reads no clock and writes nothing to the `sessions` table. -/
def validate_csrf_token (fuel : Nat) (sessions : SessionTable) (lookup_ok : Bool)
    (session_id provided_token : Option String) : Option Int :=
  match session_id, provided_token with
  | some session_id, some provided_token =>
    let valid := csrf_token_valid sessions lookup_ok session_id provided_token
    if valid = 0 then (security_log fuel LogLevel.LOG_SECURITY).map fun _ => valid
    else some valid
  | _, _ => some 0

/-- The test of the loop of `sanitize_input` under which a character is copied. -/
def sanitize_keep (c : Char) : Bool :=
  c != '<' && c != '>' && c != Char.ofNat 34 && c != Char.ofNat 39 && c != '&' &&
    c != Char.ofNat 13 && c != Char.ofNat 10 && c != Char.ofNat 0 && decide (c.toNat ≥ 32)

/-- The loop of `sanitize_input`: copy the characters that pass the test, in order. -/
def sanitize_chars : List Char → List Char
  | [] => []
  | c :: rest => if sanitize_keep c then c :: sanitize_chars rest else sanitize_chars rest

/-- `sanitize_input`: `NULL` for `NULL`, otherwise the copy made by the loop. -/
def sanitize_input (input : Option String) : Option String :=
  match input with
  | none => none
  | some input => some (String.mk (sanitize_chars input.toList))

/-- The characters that a sanitised string is to be free of: `<`, `>`, the double quote, the
apostrophe, `&`, and every byte below 32. -/
def is_dangerous (c : Char) : Bool :=
  c == '<' || c == '>' || c == Char.ofNat 34 || c == Char.ofNat 39 || c == '&' ||
    decide (c.toNat < 32)

/-- A session row of user `u-1` with token `tok`, created at 0, expiring at 3600, seen from
`10.0.0.1`, with the given `is_active`. -/
def sample_session_row (is_active : Int) : SessionRow :=
  { user_id := "u-1", csrf_token := "tok", ip_address := "10.0.0.1", user_agent := "agent",
    created_at := 0, last_accessed := 0, expires_at := 3600, is_active := is_active,
    login_method := "password" }

/-- A `sessions` table whose only row is `sample_session_row`, stored under `sid-1`. -/
def sample_sessions (is_active : Int) : SessionTable :=
  fun key => if key = "sid-1" then some (sample_session_row is_active) else none

/-- A row with the given counters and block time and a window opened at time `0`. -/
def sample_row (request_count violation_count blocked_until : Int) : RateLimitRow :=
  { window_start := 0, request_count := request_count, blocked_until := blocked_until,
    violation_count := violation_count, total_requests := request_count,
    first_seen := 0, last_seen := 0 }

/-- A table whose only row is `sample_row`, stored under `10.0.0.9`. -/
def sample_table (request_count violation_count blocked_until : Int) : RateLimitTable :=
  fun key =>
    if key = "10.0.0.9" then some (sample_row request_count violation_count blocked_until)
    else none

end Secure

/-! ## `production_server_v3.c`: rate limiter on the `rate_limits` table

Same conventions as for `production_server_secure.c`; the table of this variant has the columns
`request_count` and `window_start` only. -/

namespace V3

/-- `#define RATE_LIMIT_WINDOW 60  // 60 seconds`. -/
def RATE_LIMIT_WINDOW : Int := 60

/-- `#define RATE_LIMIT_MAX_REQUESTS 100`. -/
def RATE_LIMIT_MAX_REQUESTS : Int := 100

/-- One row of the `rate_limits` table, without its key `ip_address`. -/
structure RateLimitRow where
  request_count : Int
  window_start : Int
  deriving DecidableEq, Repr

/-- The `rate_limits` table: the row stored under each address, if any. -/
abbrev RateLimitTable := String → Option RateLimitRow

/-- The table with the row of `ip_address` replaced (or created). -/
def RateLimitTable.put (table : RateLimitTable) (ip_address : String) (row : RateLimitRow) :
    RateLimitTable :=
  fun key => if key = ip_address then some row else table key

/-- `check_rate_limit` of `production_server_v3.c`: the verdict and the table afterwards.
`lookup_ok` tells whether `sqlite3_prepare_v2` succeeds for the `SELECT`, `write_ok` whether it
succeeds for the one `UPDATE` or `INSERT` the call goes on to issue (the code does not test the
latter; a statement that was not prepared changes nothing). `request_count` is fetched with
`sqlite3_column_int`. -/
def check_rate_limit (table : RateLimitTable) (lookup_ok write_ok : Bool) (ip_address : String)
    (now : Int) : Int × RateLimitTable :=
  if lookup_ok then
    match table ip_address with
    | some row =>
      let request_count := wrapInt32 row.request_count
      let window_start := row.window_start
      if now - window_start > RATE_LIMIT_WINDOW then
        (1, if write_ok then
              table.put ip_address { request_count := 1, window_start := now }
            else table)
      else if request_count ≥ RATE_LIMIT_MAX_REQUESTS then
        (0, table)
      else
        (1, if write_ok then
              table.put ip_address { row with request_count := row.request_count + 1 }
            else table)
    | none =>
      (1, if write_ok then
            table.put ip_address { request_count := 1, window_start := now }
          else table)
  else
    (1, table)

/-- A table whose only row, stored under `10.0.0.9`, has the given counter and a window opened
at time `0`. -/
def sample_table (request_count : Int) : RateLimitTable :=
  fun key =>
    if key = "10.0.0.9" then some { request_count := request_count, window_start := 0 }
    else none

/-! ### Users and `authenticate_user` in `production_server_v3.c` -/

/-- `#define HASH_LENGTH 64`. -/
def HASH_LENGTH : Nat := 64

/-- One row of the `users` table. -/
structure UserRow where
  user_id : Int
  username : String
  email : String
  mobile : String
  password_hash : String
  salt : String
  failed_attempts : Int
  locked_until : Int
  created_at : Int
  is_active : Int
  deriving DecidableEq, Repr

/-- The text `%016lx` prints for a 64-bit value: lower-case hexadecimal, padded with zeros to 16
characters. -/
def hex16 (n : Nat) : String :=
  let digits := Nat.toDigits 16 (n % 18446744073709551616)
  String.mk (List.replicate (16 - digits.length) '0' ++ digits)

/-- `hash_password` of `production_server_v3.c`: the checksum loop of `production_server.c` over
the first 511 characters of password followed by salt, printed as four 16-digit hexadecimal
numbers (the value and its products by 31, 37 and 41) cut to `HASH_LENGTH` characters. -/
def hash_password (password salt : String) : String :=
  let combined := Production.snprintf 512 (password ++ salt)
  let hash_value := combined.toList.foldl Production.hash_step 5381
  Production.snprintf (HASH_LENGTH + 1)
    (hex16 hash_value ++ hex16 (hash_value * 31) ++ hex16 (hash_value * 37) ++
      hex16 (hash_value * 41))

/-- `verify_password`: recompute the hash and compare with `strcmp`. -/
def verify_password (password salt stored_hash : String) : Bool :=
  decide (hash_password password salt = stored_hash)

/-- An `UPDATE users SET ... WHERE user_id = ?`: `change` applied to every row with that id. -/
def update_where_user_id (users : List UserRow) (user_id : Int) (change : UserRow → UserRow) :
    List UserRow :=
  users.map fun row => if row.user_id = user_id then change row else row

/-- `lock_user_account(user_id, duration)`: sets `locked_until = now + duration`; the result is
1 when the statement ran. `lock_ok` tells whether the `UPDATE` can be prepared. -/
def lock_user_account (users : List UserRow) (lock_ok : Bool) (user_id duration now : Int) :
    Int × List UserRow :=
  if lock_ok then
    (1, update_where_user_id users user_id fun row => { row with locked_until := now + duration })
  else (0, users)

/-- `authenticate_user`: 1 success, 0 wrong password or unknown user, -1 account locked, and the
`users` table afterwards. `lookup_ok` tells whether the `SELECT` can be prepared, `write_ok`
whether the `UPDATE` of `failed_attempts` can, `lock_ok` whether the `UPDATE` inside
`lock_user_account` can. `user_id` and `failed_attempts` are fetched with `sqlite3_column_int`;
the threshold test reads the fetched `failed_attempts`, the value before the increment. -/
def authenticate_user (users : List UserRow) (lookup_ok write_ok lock_ok : Bool)
    (username password : String) (now : Int) : Int × List UserRow :=
  if lookup_ok then
    match users.find? (fun row => decide (row.username = username ∧ row.is_active = 1)) with
    | some row =>
      let user_id := wrapInt32 row.user_id
      let failed_attempts := wrapInt32 row.failed_attempts
      if row.locked_until > now then (-1, users)
      else if verify_password password row.salt row.password_hash then
        (1, if write_ok then
              update_where_user_id users user_id fun r => { r with failed_attempts := 0 }
            else users)
      else
        let users1 :=
          if write_ok then
            update_where_user_id users user_id fun r =>
              { r with failed_attempts := r.failed_attempts + 1 }
          else users
        if failed_attempts ≥ 4 then
          (0, (lock_user_account users1 lock_ok user_id 1800 now).2)
        else (0, users1)
    | none => (0, users)
  else (0, users)

/-- One `authenticate_user` call for a fixed username: the password sent and the clock. -/
structure Attempt where
  password : String
  now : Int
  deriving DecidableEq, Repr

/-- The `users` table after consecutive `authenticate_user` calls for `username`, every
statement being prepared. -/
def authenticate_all (users : List UserRow) (username : String) (attempts : List Attempt) :
    List UserRow :=
  attempts.foldl (fun us a => (authenticate_user us true true true username a.password a.now).2)
    users

/-- A user `alice` with password `Abc123!@` and the given lockout state. -/
def sample_user_row (failed_attempts locked_until : Int) : UserRow :=
  { user_id := 1, username := "alice", email := "a@x.com", mobile := "+1555",
    password_hash := hash_password "Abc123!@" "pepper", salt := "pepper",
    failed_attempts := failed_attempts, locked_until := locked_until, created_at := 0,
    is_active := 1 }

end V3

/-! ## `simple_server.c`: JSON field extraction -/

namespace Simple

/-- What `extract_json_value` of `simple_server.c` writes into its `static char value[256]` for
`key`, or `none` when it returns `NULL`. This variant copies up to the next double quote, at most
255 characters, without any treatment of backslashes. -/
def json_string_value (json key : String) : Option String :=
  let search_key :=
    Production.snprintf 64 (String.mk [Char.ofNat 34] ++ key ++ String.mk [Char.ofNat 34, ':'])
  match Production.strstr json.toList search_key.toList with
  | none => none
  | some pos =>
    match ((pos.drop search_key.length).dropWhile fun c => c = ' ' ∨ c = Char.ofNat 9) with
    | [] => none
    | c :: rest =>
      if c = Char.ofNat 34 then
        some (String.mk ((rest.takeWhile fun d => d != Char.ofNat 34).take 255))
      else none

/-- `extract_json_value` of `simple_server.c`: whether the returned pointer is non-null, and the
content of the static buffer after the call (`value` is its content before). -/
def extract_json_value (value json key : String) : Bool × String :=
  match json_string_value json key with
  | some written => (true, written)
  | none => (false, value)

end Simple

/-! # Properties -/

/-! ## Shared lemmas -/

/-- Inside the range of `int` the wrap-around is the identity. -/
theorem wrapInt32_of_range {x : Int} (h1 : -2147483648 ≤ x) (h2 : x ≤ 2147483647) :
    wrapInt32 x = x := by
  unfold wrapInt32; omega

theorem findIdx?_found {α : Type} {p : α → Bool} {l : List α} {i : Nat}
    (h : l.findIdx? p = some i) : ∃ a, l[i]? = some a ∧ p a = true := by
  have := List.findIdx?_of_eq_some h
  cases hi : l[i]? with
  | none => simp [hi] at this
  | some a => exact ⟨a, rfl, by simpa [hi] using this⟩

/-- `findIdx?` returns the first position at which the predicate holds. -/
theorem findIdx?_eq_some_iff_first {α : Type} {p : α → Bool} {l : List α} {i : Nat} :
    l.findIdx? p = some i ↔
      (∃ a, l[i]? = some a ∧ p a = true) ∧
        ∀ (j : Nat) (a : α), j < i → l[j]? = some a → p a = false := by
  rw [List.findIdx?_eq_some_iff_getElem]
  constructor
  · rintro ⟨h, hp, hfirst⟩
    refine ⟨⟨l[i], List.getElem?_eq_getElem h, hp⟩, fun j a hj ha => ?_⟩
    have hjl : j < l.length := Nat.lt_trans hj h
    rw [List.getElem?_eq_getElem hjl] at ha
    cases ha
    simpa using hfirst j hj
  · rintro ⟨⟨a, ha, hp⟩, hfirst⟩
    have h : i < l.length := by
      by_contra hcon
      rw [List.getElem?_eq_none (by omega)] at ha
      cases ha
    rw [List.getElem?_eq_getElem h] at ha
    cases ha
    refine ⟨h, hp, fun j hj => ?_⟩
    have hjl : j < l.length := Nat.lt_trans hj h
    simpa using hfirst j l[j] hj (List.getElem?_eq_getElem hjl)

namespace Production

/-! ## Rate limiter of `production_server.c` -/

theorem check_rate_limit_scan_absent (ip : String) (now : Int) (rl : List RateLimit)
    (h : ∀ e ∈ rl, e.ip_address ≠ ip) : check_rate_limit_scan ip now rl = none := by
  induction rl with
  | nil => rfl
  | cons e rest ih =>
    have he : e.ip_address ≠ ip := h e (List.mem_cons_self _ _)
    have hr : ∀ x ∈ rest, x.ip_address ≠ ip := fun x hx => h x (List.mem_cons_of_mem _ hx)
    simp [check_rate_limit_scan, he, ih hr]

theorem check_rate_limit_scan_last (ip : String) (now : Int) (rl : List RateLimit)
    (e : RateLimit) (h : ∀ x ∈ rl, x.ip_address ≠ ip) (he : e.ip_address = ip)
    (hw : now - e.window_start < RATE_LIMIT_WINDOW) :
    check_rate_limit_scan ip now (rl ++ [e]) =
      some (if wrapInt32 (e.request_count + 1) ≤ RATE_LIMIT_MAX_REQUESTS then 1 else 0,
            rl ++ [{ e with request_count := wrapInt32 (e.request_count + 1) }]) := by
  induction rl with
  | nil =>
    have : ¬ (now - e.window_start ≥ RATE_LIMIT_WINDOW) := by omega
    simp [check_rate_limit_scan, he, this]
  | cons x rest ih =>
    have hx : x.ip_address ≠ ip := h x (List.mem_cons_self _ _)
    have hr : ∀ y ∈ rest, y.ip_address ≠ ip := fun y hy => h y (List.mem_cons_of_mem _ hy)
    simp [check_rate_limit_scan, hx, ih hr]

theorem check_rate_limit_calls_under (ip : String) (rl : List RateLimit) (t0 : Int)
    (h : ∀ x ∈ rl, x.ip_address ≠ ip) :
    ∀ (ts : List Int) (c : Int), 0 ≤ c → c + ts.length ≤ 100 →
      (∀ t ∈ ts, t - t0 < 60) →
      check_rate_limit_calls ip
          (rl ++ [{ ip_address := ip, request_count := c, window_start := t0 }]) ts =
        (List.replicate ts.length 1,
         rl ++ [{ ip_address := ip, request_count := c + ts.length, window_start := t0 }]) := by
  intro ts
  induction ts with
  | nil => intro c _ _ _; simp [check_rate_limit_calls]
  | cons t ts ih =>
    intro c hc hlen hwin
    have ht : t - t0 < 60 := hwin t (List.mem_cons_self _ _)
    have hts : ∀ u ∈ ts, u - t0 < 60 := fun u hu => hwin u (List.mem_cons_of_mem _ hu)
    simp only [List.length_cons, Nat.cast_add, Nat.cast_one] at hlen
    have hwrap : wrapInt32 (c + 1) = c + 1 := wrapInt32_of_range (by omega) (by omega)
    have hscan := check_rate_limit_scan_last ip t rl
      { ip_address := ip, request_count := c, window_start := t0 } h rfl
      (by simpa [RATE_LIMIT_WINDOW] using ht)
    have hle : c + 1 ≤ RATE_LIMIT_MAX_REQUESTS := by simp only [RATE_LIMIT_MAX_REQUESTS]; omega
    simp only [hwrap, hle, if_true] at hscan
    have ih2 := ih (c + 1) (by omega) (by omega) hts
    simp only [check_rate_limit_calls, check_rate_limit, hscan, ih2, List.length_cons,
      List.replicate_succ, Nat.cast_add, Nat.cast_one]
    have : c + 1 + (ts.length : Int) = c + ((ts.length : Int) + 1) := by ring
    rw [this]

theorem check_rate_limit_calls_append (ip : String) :
    ∀ (as bs : List Int) (rl : List RateLimit),
      check_rate_limit_calls ip rl (as ++ bs) =
        ((check_rate_limit_calls ip rl as).1 ++
            (check_rate_limit_calls ip (check_rate_limit_calls ip rl as).2 bs).1,
         (check_rate_limit_calls ip (check_rate_limit_calls ip rl as).2 bs).2) := by
  intro as
  induction as with
  | nil => intro bs rl; simp [check_rate_limit_calls]
  | cons a as ih => intro bs rl; simp [check_rate_limit_calls, ih]

/-- Claim C1: for an address without an entry in a table that is not full, 101 consecutive calls
of `check_rate_limit` whose times all lie less than 60 seconds after the first call are answered
Allow (1) a hundred times and then Deny (0). The order of the later times plays no part. -/
theorem check_rate_limit_ceiling (rl : List RateLimit) (ip : String) (t0 : Int) (ts : List Int)
    (hnew : ∀ e ∈ rl, e.ip_address ≠ ip) (hroom : rl.length < RATE_LIMIT_CAPACITY)
    (hlen : ts.length = 100)
    (hwin : ∀ t ∈ ts, t - t0 < RATE_LIMIT_WINDOW) :
    (check_rate_limit_calls ip rl (t0 :: ts)).1 = List.replicate 100 1 ++ [0] := by
  rcases List.eq_nil_or_concat ts with h | ⟨ts1, tl, h⟩
  · subst h; simp at hlen
  · rw [List.concat_eq_append] at h
    subst h
    have hlen1 : ts1.length = 99 := by simpa using hlen
    have hw1 : ∀ t ∈ ts1, t - t0 < 60 := fun t ht =>
      hwin t (List.mem_append_left _ ht)
    have hwl : tl - t0 < 60 := hwin tl (by simp)
    have hfirst : check_rate_limit rl ip t0 =
        (1, rl ++ [{ ip_address := ip, request_count := 1, window_start := t0 }]) := by
      simp [check_rate_limit, check_rate_limit_scan_absent ip t0 rl hnew, hroom]
    have hmid := check_rate_limit_calls_under ip rl t0 hnew ts1 1 (by omega)
      (by rw [hlen1]; norm_num) hw1
    have hlast := check_rate_limit_scan_last ip tl rl
      { ip_address := ip, request_count := 1 + (ts1.length : Int), window_start := t0 } hnew rfl
      (by simpa [RATE_LIMIT_WINDOW] using hwl)
    have hwrap : wrapInt32 (1 + (ts1.length : Int) + 1) = 101 := by
      rw [hlen1]; decide
    simp only [hwrap] at hlast
    have hcall : check_rate_limit
        (rl ++ [{ ip_address := ip, request_count := 1 + (ts1.length : Int), window_start := t0 }])
        ip tl = (0, rl ++ [{ ip_address := ip, request_count := 101, window_start := t0 }]) := by
      simp [check_rate_limit, hlast, RATE_LIMIT_MAX_REQUESTS]
    have hone : check_rate_limit_calls ip
        (rl ++ [{ ip_address := ip, request_count := 1 + (ts1.length : Int), window_start := t0 }])
        [tl] = ([0], rl ++ [{ ip_address := ip, request_count := 101, window_start := t0 }]) := by
      simp [check_rate_limit_calls, hcall]
    have hall : check_rate_limit_calls ip rl (t0 :: (ts1 ++ [tl])) =
        (1 :: (List.replicate ts1.length 1 ++ [0]),
         rl ++ [{ ip_address := ip, request_count := 101, window_start := t0 }]) := by
      rw [check_rate_limit_calls, hfirst]
      simp only [check_rate_limit_calls_append, hmid, hone]
    rw [hall, hlen1]
    rfl

theorem check_rate_limit_ceiling_witness :
    (check_rate_limit_calls "10.0.0.2" [] (0 :: List.replicate 100 7)).1 =
      List.replicate 100 1 ++ [0] :=
  check_rate_limit_ceiling [] "10.0.0.2" 0 (List.replicate 100 7) (by simp) (by decide)
    (by simp) (by simp [RATE_LIMIT_WINDOW])

/-! ## Sessions: lookup -/

theorem find_session_some {sessions : List Session} {session_id : String} {now : Int} {i : Nat}
    (h : find_session sessions session_id now = some i) :
    ∃ s, sessions[i]? = some s ∧ s.session_id = session_id ∧ s.is_active ≠ 0 ∧
      s.expires_at > now := by
  obtain ⟨s, hs, hp⟩ := findIdx?_found h
  exact ⟨s, hs, by simpa using hp⟩

theorem unique_id_index {sessions : List Session}
    (huniq : (sessions.map Session.session_id).Nodup) {i j : Nat} {a b : Session}
    (ha : sessions[i]? = some a) (hb : sessions[j]? = some b)
    (hid : a.session_id = b.session_id) : i = j := by
  have hi : i < sessions.length := by
    by_contra hcon
    rw [List.getElem?_eq_none (by omega)] at ha
    cases ha
  have hj : j < sessions.length := by
    by_contra hcon
    rw [List.getElem?_eq_none (by omega)] at hb
    cases hb
  have hi2 : i < (sessions.map Session.session_id).length := by simpa using hi
  have hj2 : j < (sessions.map Session.session_id).length := by simpa using hj
  have hai : sessions[i] = a := by
    rw [List.getElem?_eq_getElem hi] at ha; exact Option.some.inj ha
  have hbj : sessions[j] = b := by
    rw [List.getElem?_eq_getElem hj] at hb; exact Option.some.inj hb
  exact (@List.Nodup.getElem_inj_iff _ _ huniq i hi2 j hj2).mp (by simp [hai, hbj, hid])

/-- With distinct ids, the lookup finds exactly the live session carrying the id. -/
theorem find_session_of_live {sessions : List Session}
    (huniq : (sessions.map Session.session_id).Nodup) {i : Nat} {s : Session} {now : Int}
    (hs : sessions[i]? = some s) (hact : s.is_active ≠ 0) (hexp : s.expires_at > now) :
    find_session sessions s.session_id now = some i := by
  cases hf : find_session sessions s.session_id now with
  | none =>
    unfold find_session at hf
    rw [List.findIdx?_eq_none_iff] at hf
    have hmem : s ∈ sessions := List.getElem?_mem hs
    have := hf s hmem
    simp [hact, hexp] at this
  | some j =>
    obtain ⟨b, hb, hid, -, -⟩ := find_session_some hf
    rw [unique_id_index huniq hb hs hid]

theorem send_json_error_status (c : Int) (m : String) (now : Int) :
    (send_json_error c m now).status = c := rfl

theorem send_json_success_status (m : String) (now : Int) :
    (send_json_success m now).status = 200 := rfl

/-! ## The step of a session never goes back -/

theorem sessions_advance_refl (l : List Session) : sessions_advance l l :=
  fun _ s hs => ⟨s, hs, rfl, le_refl _⟩

theorem sessions_advance_trans {a b c : List Session} (hab : sessions_advance a b)
    (hbc : sessions_advance b c) : sessions_advance a c := by
  intro i s hs
  obtain ⟨s1, h1, hid1, hle1⟩ := hab i s hs
  obtain ⟨s2, h2, hid2, hle2⟩ := hbc i s1 h1
  exact ⟨s2, h2, hid2.trans hid1, le_trans hle1 hle2⟩

theorem sessions_advance_set (l : List Session) (i : Nat) (s s1 : Session)
    (hs : l[i]? = some s) (hid : s1.session_id = s.session_id) (hle : s.step ≤ s1.step) :
    sessions_advance l (l.set i s1) := by
  intro j t ht
  rw [List.getElem?_set]
  by_cases hij : i = j
  · subst hij
    rw [hs] at ht
    cases ht
    have hi : i < l.length := by
      by_contra hcon
      rw [List.getElem?_eq_none (by omega)] at hs
      cases hs
    simp [hi, hid, hle]
  · simp [hij, ht]

theorem valid_step_set (l : List Session) (i : Nat) (s1 : Session)
    (hl : ∀ s ∈ l, valid_step s) (h1 : valid_step s1) : ∀ s ∈ l.set i s1, valid_step s := by
  intro s hs
  rcases List.mem_or_eq_of_mem_set hs with h | h
  · exact hl s h
  · rw [h]; exact h1

theorem create_session_some {sessions sessions1 : List Session} {username ip ua : String}
    {now : Int} {r1 r2 : Nat → Nat} {session : Session}
    (h : create_session sessions username ip ua now r1 r2 = some (session, sessions1)) :
    sessions1 = sessions ++ [session] ∧ session.step = 1 := by
  unfold create_session at h
  split at h
  · cases h
  · simp only [Option.some.injEq, Prod.mk.injEq] at h
    obtain ⟨h1, h2⟩ := h
    subst h1
    exact ⟨h2.symm, rfl⟩

/-- One call keeps every step valid and moves no session backwards. -/
theorem call_run_steps (st : ServerState) (c : Call)
    (hvalid : ∀ s ∈ st.sessions, valid_step s) :
    (∀ s ∈ (c.run st).sessions, valid_step s) ∧
      sessions_advance st.sessions (c.run st).sessions := by
  cases c with
  | login_step1 u p ip ua now r1 r2 =>
    simp only [Call.run]
    unfold handle_login_step1
    split
    · split
      · exact ⟨hvalid, sessions_advance_refl _⟩
      · split
        · exact ⟨hvalid, sessions_advance_refl _⟩
        · split
          · exact ⟨hvalid, sessions_advance_refl _⟩
          · split
            · exact ⟨hvalid, sessions_advance_refl _⟩
            · dsimp only
              split
              · exact ⟨hvalid, sessions_advance_refl _⟩
              · rename_i session sessions1 hcreate
                obtain ⟨hl, hstep⟩ := create_session_some hcreate
                dsimp only
                subst hl
                constructor
                · intro s hs
                  rcases List.mem_append.mp hs with h | h
                  · exact hvalid s h
                  · simp only [List.mem_singleton] at h
                    rw [h]; exact Or.inl hstep
                · intro i s hs
                  have hi : i < st.sessions.length := by
                    by_contra hcon
                    rw [List.getElem?_eq_none (by omega)] at hs
                    cases hs
                  exact ⟨s, by rw [List.getElem?_append_left hi]; exact hs, rfl, le_refl _⟩
    · exact ⟨hvalid, sessions_advance_refl _⟩
  | login_step2 sid otp now =>
    simp only [Call.run]
    unfold handle_login_step2
    split
    · split
      · exact ⟨hvalid, sessions_advance_refl _⟩
      · split
        · exact ⟨hvalid, sessions_advance_refl _⟩
        · rename_i i _ _ s hs
          split
          · exact ⟨hvalid, sessions_advance_refl _⟩
          · rename_i hstep
            split
            · exact ⟨hvalid, sessions_advance_refl _⟩
            · dsimp only
              have h1 : s.step = 1 := by simpa using hstep
              exact ⟨valid_step_set _ i _ hvalid (Or.inr (Or.inl rfl)),
                sessions_advance_set _ i s _ hs rfl (by dsimp only; omega)⟩
    · exact ⟨hvalid, sessions_advance_refl _⟩
  | login_step3 sid now =>
    simp only [Call.run]
    unfold handle_login_step3
    split
    · split
      · exact ⟨hvalid, sessions_advance_refl _⟩
      · split
        · exact ⟨hvalid, sessions_advance_refl _⟩
        · rename_i i _ _ s hs
          split
          · exact ⟨hvalid, sessions_advance_refl _⟩
          · rename_i hstep
            dsimp only
            have h2 : s.step = 2 := by simpa using hstep
            exact ⟨valid_step_set _ i _ hvalid (Or.inr (Or.inr rfl)),
              sessions_advance_set _ i s _ hs rfl (by dsimp only; omega)⟩
    · exact ⟨hvalid, sessions_advance_refl _⟩
  | resend_otp sid now r =>
    simp only [Call.run]
    unfold handle_resend_otp
    split
    · split
      · exact ⟨hvalid, sessions_advance_refl _⟩
      · split
        · exact ⟨hvalid, sessions_advance_refl _⟩
        · rename_i i _ _ s hs
          dsimp only
          exact ⟨valid_step_set _ i _ hvalid (hvalid s (List.getElem?_mem hs)),
            sessions_advance_set _ i s _ hs rfl (le_refl _)⟩
    · exact ⟨hvalid, sessions_advance_refl _⟩
  | cleanup now =>
    simp only [Call.run, cleanup_expired_sessions]
    constructor
    · intro s hs
      obtain ⟨t, ht, rfl⟩ := List.mem_map.mp hs
      have := hvalid t ht
      split
      · exact this
      · exact this
    · intro i s hs
      rw [List.getElem?_map, hs]
      refine ⟨_, rfl, ?_, ?_⟩ <;> (dsimp only; split <;> simp)

theorem run_calls_steps (calls : List Call) :
    ∀ st : ServerState, (∀ s ∈ st.sessions, valid_step s) →
      (∀ s ∈ (run_calls st calls).sessions, valid_step s) ∧
        sessions_advance st.sessions (run_calls st calls).sessions := by
  induction calls with
  | nil => intro st h; exact ⟨h, sessions_advance_refl _⟩
  | cons c cs ih =>
    intro st h
    obtain ⟨hv, ha⟩ := call_run_steps st c h
    obtain ⟨hv2, ha2⟩ := ih (c.run st) hv
    exact ⟨hv2, sessions_advance_trans ha ha2⟩

/-- Claim C6: start from any tables whose sessions all have a step among 1, 2, 3 (the empty
session table of a fresh server is one) and run any sequence of step-1, step-2, step-3,
resend-OTP and expiry-sweep calls. Every session then present has a step among 1, 2, 3, and after
any further such calls the same slot holds the same session id at a step that is again among
1, 2, 3 and not lower. -/
theorem session_step_monotone (st0 : ServerState) (history later : List Call) (i : Nat)
    (s : Session)
    (h0 : ∀ x ∈ st0.sessions, x.step = 1 ∨ x.step = 2 ∨ x.step = 3)
    (hs : (run_calls st0 history).sessions[i]? = some s) :
    (s.step = 1 ∨ s.step = 2 ∨ s.step = 3) ∧
      ∃ s1, (run_calls (run_calls st0 history) later).sessions[i]? = some s1 ∧
        s1.session_id = s.session_id ∧ s.step ≤ s1.step ∧
        (s1.step = 1 ∨ s1.step = 2 ∨ s1.step = 3) := by
  obtain ⟨hv1, -⟩ := run_calls_steps history st0 h0
  obtain ⟨hv2, ha2⟩ := run_calls_steps later _ hv1
  obtain ⟨s1, h1, hid, hle⟩ := ha2 i s hs
  exact ⟨hv1 s (List.getElem?_mem hs), s1, h1, hid, hle, hv2 s1 (List.getElem?_mem h1)⟩

theorem session_step_monotone_witness :
    ((sample_session 1).step = 1 ∨ (sample_session 1).step = 2 ∨ (sample_session 1).step = 3) ∧
      ∃ s1,
        (run_calls
            (run_calls (sample_state [])
              [Call.login_step1 (some "alice") (some "Abc123!@") "10.0.0.1" "agent" 0
                sample_rand sample_rand,
               Call.resend_otp (some (generate_session_id sample_rand)) 5 sample_rand])
            [Call.login_step2 (some (generate_session_id sample_rand))
                (some (generate_otp sample_rand)) 10,
             Call.login_step3 (some (generate_session_id sample_rand)) 20,
             Call.cleanup 4000]).sessions[0]? = some s1 ∧
        s1.session_id = generate_session_id sample_rand ∧ (1 : Int) ≤ s1.step ∧
        (s1.step = 1 ∨ s1.step = 2 ∨ s1.step = 3) :=
  session_step_monotone (sample_state [])
    [Call.login_step1 (some "alice") (some "Abc123!@") "10.0.0.1" "agent" 0
      sample_rand sample_rand,
     Call.resend_otp (some (generate_session_id sample_rand)) 5 sample_rand]
    [Call.login_step2 (some (generate_session_id sample_rand))
        (some (generate_otp sample_rand)) 10,
     Call.login_step3 (some (generate_session_id sample_rand)) 20,
     Call.cleanup 4000]
    0
    { session_id := generate_session_id sample_rand, username := "alice",
      otp := generate_otp sample_rand, created_at := 0, expires_at := 3600, step := 1,
      is_active := 1, ip_address := "10.0.0.1", user_agent := "agent" }
    (by simp [sample_state]) (by decide)

/-! ## A new address in the rate limiter of `production_server.c` -/

/-- Claim C12, amended: for an address without an entry `check_rate_limit` returns Allow (1);
while the table holds fewer than 1000 entries it appends the entry of that address with
`request_count = 1` and `window_start = now`, and once the table holds 1000 entries it leaves the
table as it is. -/
theorem new_address_allowed (rl : List RateLimit) (ip : String) (now : Int)
    (hnew : ∀ e ∈ rl, e.ip_address ≠ ip) :
    (check_rate_limit rl ip now).1 = 1 ∧
      (rl.length < RATE_LIMIT_CAPACITY →
        (check_rate_limit rl ip now).2 =
          rl ++ [{ ip_address := ip, request_count := 1, window_start := now }]) ∧
      (RATE_LIMIT_CAPACITY ≤ rl.length → (check_rate_limit rl ip now).2 = rl) := by
  have hscan := check_rate_limit_scan_absent ip now rl hnew
  refine ⟨?_, ?_, ?_⟩
  · simp only [check_rate_limit, hscan]
    split <;> rfl
  · intro h
    simp [check_rate_limit, hscan, h]
  · intro h
    have : ¬ rl.length < RATE_LIMIT_CAPACITY := by omega
    simp [check_rate_limit, hscan, this]

theorem new_address_allowed_witness :
    (check_rate_limit [{ ip_address := "10.0.0.1", request_count := 3, window_start := 0 }]
        "10.0.0.2" 5).1 = 1 ∧
      (check_rate_limit [{ ip_address := "10.0.0.1", request_count := 3, window_start := 0 }]
        "10.0.0.2" 5).2 =
        [{ ip_address := "10.0.0.1", request_count := 3, window_start := 0 }] ++
          [{ ip_address := "10.0.0.2", request_count := 1, window_start := 5 }] :=
  have h := new_address_allowed
    [{ ip_address := "10.0.0.1", request_count := 3, window_start := 0 }] "10.0.0.2" 5
    (by decide)
  ⟨h.1, h.2.1 (by decide)⟩

/-- Claim C12 fails on a full table: all 1000 slots belong to `10.0.0.1`, the request of
`10.0.0.2` is allowed, and the table afterwards is the same table, without any entry for
`10.0.0.2`. -/
theorem full_table_counterexample :
    (∀ e ∈ full_table, e.ip_address ≠ "10.0.0.2") ∧
      check_rate_limit full_table "10.0.0.2" 5 = (1, full_table) ∧
      ∀ e ∈ (check_rate_limit full_table "10.0.0.2" 5).2, e.ip_address ≠ "10.0.0.2" := by
  have hnew : ∀ e ∈ full_table, e.ip_address ≠ "10.0.0.2" := by
    intro e he
    rw [full_table, List.mem_replicate] at he
    rw [he.2]
    decide
  have hcall : check_rate_limit full_table "10.0.0.2" 5 = (1, full_table) := by
    have hlen : full_table.length = 1000 := List.length_replicate _ _
    have hfull : ¬ full_table.length < RATE_LIMIT_CAPACITY := by
      rw [hlen]; decide
    simp only [check_rate_limit, check_rate_limit_scan_absent "10.0.0.2" 5 full_table hnew,
      hfull, if_false]
  exact ⟨hnew, hcall, by rw [hcall]; exact hnew⟩

/-! ## One-time codes: `create_session` and `handle_resend_otp` -/

theorem generate_otp_length (r : Nat → Nat) : (generate_otp r).length = 6 := by
  simp [generate_otp, String.length, OTP_LENGTH]

theorem generate_otp_digits (r : Nat → Nat) :
    ∀ c ∈ (generate_otp r).toList, isdigit c = true := by
  intro c hc
  have hlist : (generate_otp r).toList =
      (List.range OTP_LENGTH).map fun i => Char.ofNat (48 + r i % 10) := rfl
  rw [hlist, List.mem_map] at hc
  obtain ⟨i, -, rfl⟩ := hc
  have hlt : r i % 10 < 10 := Nat.mod_lt _ (by decide)
  have key : ∀ n, n < 10 → isdigit (Char.ofNat (48 + n)) = true := by decide
  exact key _ hlt

/-- Claim C13: with `session_count < MAX_SESSIONS`, `create_session` returns a session that it
appends to the table: step 1, `is_active = 1`, `created_at = now`, `expires_at = now + 3600`
(later than `created_at`), the given username and an OTP of six characters, all of them decimal
digits; every slot that existed keeps its session. -/
theorem create_session_appends (sessions : List Session) (username ip ua : String) (now : Int)
    (r1 r2 : Nat → Nat) (hroom : sessions.length < MAX_SESSIONS) :
    ∃ session : Session,
      create_session sessions username ip ua now r1 r2 = some (session, sessions ++ [session]) ∧
      session.step = 1 ∧ session.is_active = 1 ∧ session.created_at = now ∧
      session.expires_at = now + 3600 ∧ session.expires_at > session.created_at ∧
      session.username = username ∧ session.otp.length = 6 ∧
      (∀ c ∈ session.otp.toList, isdigit c = true) ∧
      (sessions ++ [session]).length = sessions.length + 1 ∧
      ∀ i < sessions.length, (sessions ++ [session])[i]? = sessions[i]? := by
  have hr : ¬ (sessions.length ≥ MAX_SESSIONS) := by omega
  refine ⟨
    { session_id := generate_session_id r1,
      username := username,
      otp := generate_otp r2,
      created_at := now,
      expires_at := now + SESSION_TIMEOUT,
      step := 1,
      is_active := 1,
      ip_address := String.mk (ip.toList.take 45),
      user_agent := String.mk (ua.toList.take 255) },
    by simp only [create_session, hr, if_false], rfl, rfl, rfl, rfl, ?_, rfl,
    generate_otp_length r2, generate_otp_digits r2, by simp, ?_⟩
  · simp only [SESSION_TIMEOUT]; omega
  · intro i hi
    exact List.getElem?_append_left hi

theorem create_session_appends_witness :
    ∃ session : Session,
      create_session [sample_session 2] "alice" "10.0.0.1" "agent" 50 sample_rand sample_rand =
        some (session, [sample_session 2] ++ [session]) ∧
      session.step = 1 ∧ session.is_active = 1 ∧ session.created_at = 50 ∧
      session.expires_at = 50 + 3600 ∧ session.expires_at > session.created_at ∧
      session.username = "alice" ∧ session.otp.length = 6 ∧
      (∀ c ∈ session.otp.toList, isdigit c = true) ∧
      ([sample_session 2] ++ [session]).length = [sample_session 2].length + 1 ∧
      ∀ i < [sample_session 2].length,
        ([sample_session 2] ++ [session])[i]? = [sample_session 2][i]? :=
  create_session_appends [sample_session 2] "alice" "10.0.0.1" "agent" 50 sample_rand sample_rand
    (by decide)

/-- Claim C14: a resend-OTP request answered 200 names a live session of the table and its only
effect is to store a new OTP of six decimal digits in that session: `session_id`, `username`,
`step`, `created_at`, `expires_at` and `is_active` of the session, every other session and the
users are as before. -/
theorem resend_replaces_only_otp (st : ServerState) (session_id : Option String) (now : Int)
    (rand_otp : Nat → Nat)
    (hok : (handle_resend_otp st session_id now rand_otp).1.status = 200) :
    ∃ i s, st.sessions[i]? = some s ∧ session_id = some s.session_id ∧ s.is_active ≠ 0 ∧
      s.expires_at > now ∧
      (handle_resend_otp st session_id now rand_otp).2 =
        { st with sessions := st.sessions.set i { s with otp := generate_otp rand_otp } } ∧
      (generate_otp rand_otp).length = 6 ∧
      (∀ c ∈ (generate_otp rand_otp).toList, isdigit c = true) ∧
      ∀ j, j ≠ i →
        (handle_resend_otp st session_id now rand_otp).2.sessions[j]? = st.sessions[j]? := by
  cases session_id with
  | none => simp [handle_resend_otp, send_json_error_status] at hok
  | some id =>
    cases hf : find_session st.sessions id now with
    | none => simp [handle_resend_otp, hf, send_json_error_status] at hok
    | some i =>
      obtain ⟨s, hs, hid, hact, hexp⟩ := find_session_some hf
      refine ⟨i, s, hs, by rw [hid], hact, hexp, ?_, generate_otp_length _,
        generate_otp_digits _, ?_⟩
      · simp [handle_resend_otp, hf, hs]
      · intro j hj
        simp only [handle_resend_otp, hf, hs]
        exact List.getElem?_set_ne (Ne.symm hj)

theorem resend_replaces_only_otp_witness :
    ∃ i s, (sample_state [sample_session 2]).sessions[i]? = some s ∧
      some "sid-1" = some s.session_id ∧ s.is_active ≠ 0 ∧ s.expires_at > 10 ∧
      (handle_resend_otp (sample_state [sample_session 2]) (some "sid-1") 10 sample_rand).2 =
        { sample_state [sample_session 2] with
          sessions := (sample_state [sample_session 2]).sessions.set i
            { s with otp := generate_otp sample_rand } } ∧
      (generate_otp sample_rand).length = 6 ∧
      (∀ c ∈ (generate_otp sample_rand).toList, isdigit c = true) ∧
      ∀ j, j ≠ i →
        (handle_resend_otp (sample_state [sample_session 2]) (some "sid-1") 10
            sample_rand).2.sessions[j]? = (sample_state [sample_session 2]).sessions[j]? :=
  resend_replaces_only_otp (sample_state [sample_session 2]) (some "sid-1") 10 sample_rand
    (by decide)

/-- Claim C15 fails at step 3: the live session `sid-1` is at step 3 (Authenticated), and the
resend-OTP request naming it is answered 200, not with the invalid-session error, and stores the
new OTP `012345`. -/
theorem resend_at_step3_counterexample :
    (sample_session 3).step = 3 ∧
      find_session (sample_state [sample_session 3]).sessions "sid-1" 10 = some 0 ∧
      (handle_resend_otp (sample_state [sample_session 3]) (some "sid-1") 10 sample_rand).1.status =
        200 ∧
      (handle_resend_otp (sample_state [sample_session 3]) (some "sid-1") 10 sample_rand).1 ≠
        send_json_error 401 "Invalid session" 10 ∧
      (handle_resend_otp (sample_state [sample_session 3]) (some "sid-1") 10
          sample_rand).2.sessions =
        [{ sample_session 3 with otp := "012345" }] ∧
      handle_resend_otp_request (sample_state [sample_session 3]) ""
          (json_object [("session_id", "sid-1")]) 10 sample_rand =
        handle_resend_otp (sample_state [sample_session 3]) (some "sid-1") 10 sample_rand := by
  refine ⟨by decide, by decide, by decide, by decide, by decide, by decide⟩

/-! ## Registration -/

/-- The `if` / `else if` chain raises exactly the flag of the class of the character: the four
classes are disjoint. -/
theorem password_flags_step_eq (f : PasswordFlags) (c : Char) :
    password_flags_step f c =
      { has_upper := f.has_upper || isupper c,
        has_lower := f.has_lower || islower c,
        has_digit := f.has_digit || isdigit c,
        has_special := f.has_special || ispunct c } := by
  cases f with
  | mk u l d s =>
    unfold password_flags_step
    by_cases hu : isupper c = true
    · have hl : islower c = false := by
        simp only [isupper, islower, decide_eq_true_eq, decide_eq_false_iff_not] at hu ⊢; omega
      have hd : isdigit c = false := by
        simp only [isupper, isdigit, decide_eq_true_eq, decide_eq_false_iff_not] at hu ⊢; omega
      have hp : ispunct c = false := by
        simp only [isupper, ispunct, decide_eq_true_eq, decide_eq_false_iff_not] at hu ⊢; omega
      simp [hu, hl, hd, hp]
    · by_cases hl : islower c = true
      · have hd : isdigit c = false := by
          simp only [islower, isdigit, decide_eq_true_eq, decide_eq_false_iff_not] at hl ⊢; omega
        have hp : ispunct c = false := by
          simp only [islower, ispunct, decide_eq_true_eq, decide_eq_false_iff_not] at hl ⊢; omega
        simp [hu, hl, hd, hp]
      · by_cases hd : isdigit c = true
        · have hp : ispunct c = false := by
            simp only [isdigit, ispunct, decide_eq_true_eq, decide_eq_false_iff_not] at hd ⊢
            omega
          simp [hu, hl, hd, hp]
        · by_cases hp : ispunct c = true
          · simp [hu, hl, hd, hp]
          · simp [hu, hl, hd, hp]

theorem password_flags_fold (cs : List Char) :
    ∀ f : PasswordFlags,
      cs.foldl password_flags_step f =
        { has_upper := f.has_upper || cs.any isupper,
          has_lower := f.has_lower || cs.any islower,
          has_digit := f.has_digit || cs.any isdigit,
          has_special := f.has_special || cs.any ispunct } := by
  induction cs with
  | nil => intro f; cases f; simp
  | cons c cs ih =>
    intro f
    rw [List.foldl_cons, ih, password_flags_step_eq]
    simp [Bool.or_assoc]

/-- Claim C17: `is_strong_password` returns true exactly for the passwords of at least 8
characters that contain an upper-case letter, a lower-case letter, a digit and a punctuation
character (classes of the C locale, ASCII); it accepts `Abc123!@`. -/
theorem is_strong_password_iff (password : String) :
    (is_strong_password (some password) = true ↔
        8 ≤ password.length ∧
          (∃ c ∈ password.toList, isupper c = true) ∧
          (∃ c ∈ password.toList, islower c = true) ∧
          (∃ c ∈ password.toList, isdigit c = true) ∧
          (∃ c ∈ password.toList, ispunct c = true)) ∧
      is_strong_password (some "Abc123!@") = true := by
  refine ⟨?_, by decide⟩
  unfold is_strong_password
  by_cases hlen : password.length < 8
  · simp only [hlen, if_true]
    constructor
    · intro h; cases h
    · intro h; omega
  · simp only [hlen, if_false, password_flags_fold, Bool.false_or, Bool.and_eq_true,
      List.any_eq_true]
    constructor
    · rintro ⟨⟨⟨h1, h2⟩, h3⟩, h4⟩
      exact ⟨by omega, h1, h2, h3, h4⟩
    · rintro ⟨-, h1, h2, h3, h4⟩
      exact ⟨⟨⟨h1, h2⟩, h3⟩, h4⟩

theorem verify_password_hash (password salt : String) :
    verify_password password salt (hash_password_with_salt password salt) = true := by
  simp [verify_password]

/-! ### The expiry sweep and the session counter -/

/-- A second sweep at the same time changes nothing. -/
theorem cleanup_expired_sessions_idempotent (st : ServerState) (now : Int) :
    cleanup_expired_sessions (cleanup_expired_sessions st now) now =
      cleanup_expired_sessions st now := by
  unfold cleanup_expired_sessions
  simp only [List.map_map]
  congr 1
  apply List.map_congr_left
  intro s _
  simp only [Function.comp]
  by_cases h : s.expires_at < now <;> simp [h]

/-- Claim C22 at a session whose `expires_at` equals the time of the sweep. The session `sid-1`
expires at 3600 and is active; the sweep at `now = 3600` tests `expires_at < now` and leaves it
as it was, with `is_active = 1`, although `find_session` at the same time no longer returns it
(it asks for `expires_at > now`). One second later the sweep does clear `is_active`. -/
theorem sweep_keeps_session_expiring_now :
    (sample_session 1).expires_at = 3600 ∧
    (sample_session 1).is_active = 1 ∧
    (cleanup_expired_sessions (sample_state [sample_session 1]) 3600).sessions =
      [sample_session 1] ∧
    find_session [sample_session 1] "sid-1" 3600 = none ∧
    (cleanup_expired_sessions (sample_state [sample_session 1]) 3601).sessions =
      [{ sample_session 1 with is_active := 0 }] := by
  decide

theorem SessionOp_run_length (sessions : List Session) (op : SessionOp)
    (h : sessions.length ≤ MAX_SESSIONS) :
    sessions.length ≤ (SessionOp.run sessions op).length ∧
      (SessionOp.run sessions op).length ≤ MAX_SESSIONS := by
  cases op with
  | create username ip ua now r1 r2 =>
    unfold SessionOp.run create_session
    by_cases hfull : sessions.length ≥ MAX_SESSIONS
    · simp [hfull, h]
    · simp only [hfull, if_false, List.length_append, List.length_singleton]
      omega
  | cleanup now =>
    simp [SessionOp.run, cleanup_expired_sessions, h]

theorem run_session_ops_length (ops : List SessionOp) :
    ∀ sessions : List Session, sessions.length ≤ MAX_SESSIONS →
      sessions.length ≤ (run_session_ops sessions ops).length ∧
        (run_session_ops sessions ops).length ≤ MAX_SESSIONS := by
  induction ops with
  | nil => intro sessions h; exact ⟨le_refl _, h⟩
  | cons op rest ih =>
    intro sessions h
    have h1 := SessionOp_run_length sessions op h
    have h2 := ih (SessionOp.run sessions op) h1.2
    simp only [run_session_ops, List.foldl_cons] at h2 ⊢
    exact ⟨le_trans h1.1 h2.1, h2.2⟩

theorem full_sessions_length : full_sessions.length = MAX_SESSIONS := by
  rw [full_sessions, List.length_replicate]; rfl

/-- A table of `MAX_SESSIONS` sessions that have all expired still refuses a new session. -/
theorem create_session_full_expired :
    (∀ s ∈ full_sessions, s.expires_at < 5000) ∧
      create_session full_sessions "alice" "10.0.0.1" "agent" 5000 sample_rand sample_rand =
        none := by
  constructor
  · intro s hs
    rw [full_sessions, List.mem_replicate] at hs
    rw [hs.2]
    decide
  · unfold create_session
    rw [if_pos]
    rw [full_sessions_length]

/-- Claim C28: start from a session table of at most `MAX_SESSIONS` (1000) entries and run any
sequence of `create_session` and `cleanup_expired_sessions` calls. After every prefix of the
sequence `session_count` is at most 1000 and not above what it is after any longer prefix, so it
never decreases. `create_session` returns `NULL` exactly when `session_count = MAX_SESSIONS`,
whatever the stored sessions are (expired and inactive ones count), and the table is then the
one before the call. -/
theorem session_count_monotone_and_bounded (sessions : List Session)
    (h : sessions.length ≤ MAX_SESSIONS) :
    (∀ ops more : List SessionOp,
        (run_session_ops sessions ops).length ≤ (run_session_ops sessions (ops ++ more)).length ∧
          (run_session_ops sessions ops).length ≤ MAX_SESSIONS) ∧
      (∀ (username ip_address user_agent : String) (now : Int) (rand_id rand_otp : Nat → Nat),
        (create_session sessions username ip_address user_agent now rand_id rand_otp = none ↔
            sessions.length = MAX_SESSIONS) ∧
          (create_session sessions username ip_address user_agent now rand_id rand_otp = none →
            SessionOp.run sessions
              (SessionOp.create username ip_address user_agent now rand_id rand_otp) =
              sessions)) := by
  constructor
  · intro ops more
    have h1 := run_session_ops_length ops sessions h
    have h2 := run_session_ops_length more (run_session_ops sessions ops) h1.2
    refine ⟨?_, h1.2⟩
    have : run_session_ops sessions (ops ++ more) =
        run_session_ops (run_session_ops sessions ops) more := by
      simp [run_session_ops, List.foldl_append]
    rw [this]
    exact h2.1
  · intro username ip ua now r1 r2
    constructor
    · unfold create_session
      constructor
      · intro hnone
        by_cases hfull : sessions.length ≥ MAX_SESSIONS
        · omega
        · simp [hfull] at hnone
      · intro hfull
        simp [hfull]
    · intro hnone
      simp [SessionOp.run, hnone]

/-- Claim C28 on the table holding `sid-1`: a sweep followed by a `create_session` does not
shrink it, and `create_session` returns `NULL` on it only if it had 1000 entries. -/
theorem session_count_monotone_and_bounded_witness :
    ([sample_session 1].length ≤
        (run_session_ops [sample_session 1]
          ([SessionOp.cleanup 5000] ++
            [SessionOp.create "alice" "10.0.0.1" "agent" 5000 sample_rand sample_rand])).length) ∧
      (create_session [sample_session 1] "alice" "10.0.0.1" "agent" 5000 sample_rand sample_rand =
          none ↔ [sample_session 1].length = MAX_SESSIONS) :=
  ⟨((session_count_monotone_and_bounded [sample_session 1] (by decide)).1 []
      ([SessionOp.cleanup 5000] ++
        [SessionOp.create "alice" "10.0.0.1" "agent" 5000 sample_rand sample_rand])).1,
    ((session_count_monotone_and_bounded [sample_session 1] (by decide)).2 "alice" "10.0.0.1"
      "agent" 5000 sample_rand sample_rand).1⟩

/-! ### Step 1 when the session table is full -/

theorem handle_login_step1_table_full (st : ServerState) (username password : String)
    (ip ua : String) (now : Int) (r1 r2 : Nat → Nat) (i : Nat) (user : User)
    (hfind : find_user_by_username st.users username = some i)
    (huser : st.users[i]? = some user) (hfree : user.lockout_until ≤ now)
    (hright : verify_password password user.salt user.password_hash = true)
    (hfull : st.sessions.length ≥ MAX_SESSIONS) :
    handle_login_step1 st (some username) (some password) ip ua now r1 r2 =
      (send_json_error 500 "Could not create session" now,
       { st with
         users := st.users.set i
           { user with failed_attempts := 0, lockout_until := 0, last_login := now } }) := by
  have : ¬ (user.lockout_until > now) := by omega
  simp [handle_login_step1, hfind, huser, this, hright, create_session, hfull]

/-- A body with both fields makes both locals of `handle_login_step1` designate the value of
`password`, whatever the buffer held before. -/
theorem handle_login_step1_request_alias (st : ServerState) (value body ip ua : String)
    (now : Int) (r1 r2 : Nat → Nat) (u p : String)
    (hu : json_string_value body "username" = some u)
    (hp : json_string_value body "password" = some p) :
    handle_login_step1_request st value body ip ua now r1 r2 =
      handle_login_step1 st (some p) (some p) ip ua now r1 r2 := by
  simp [handle_login_step1_request, extract_json_value, hu, hp]

/-- A body with both fields makes both locals of `handle_login_step2` designate the value of
`otp`, whatever the buffer held before. -/
theorem handle_login_step2_request_alias (st : ServerState) (value body : String) (now : Int)
    (sid otp : String)
    (hs : json_string_value body "session_id" = some sid)
    (ho : json_string_value body "otp" = some otp) :
    handle_login_step2_request st value body now =
      handle_login_step2 st (some otp) (some otp) now := by
  simp [handle_login_step2_request, extract_json_value, hs, ho]

/-- Claim C25, amended: when the user is found and not locked, the password verifies and the
session table is full, step 1 answers 500 "Could not create session" and leaves the session
table as it was, but the user's record has been reset before `create_session` was tried:
`failed_attempts = 0`, `lockout_until = 0` and `last_login = now`; the other records are
untouched. -/
theorem table_full_login_resets_user (st : ServerState) (username password : String)
    (ip ua : String) (now : Int) (r1 r2 : Nat → Nat) (i : Nat) (user : User)
    (hfind : find_user_by_username st.users username = some i)
    (huser : st.users[i]? = some user) (hfree : user.lockout_until ≤ now)
    (hright : verify_password password user.salt user.password_hash = true)
    (hfull : st.sessions.length = MAX_SESSIONS) :
    (handle_login_step1 st (some username) (some password) ip ua now r1 r2).1 =
        send_json_error 500 "Could not create session" now ∧
      (handle_login_step1 st (some username) (some password) ip ua now r1 r2).1.status = 500 ∧
      (handle_login_step1 st (some username) (some password) ip ua now r1 r2).2.sessions =
        st.sessions ∧
      (handle_login_step1 st (some username) (some password) ip ua now r1 r2).2.users =
        st.users.set i { user with failed_attempts := 0, lockout_until := 0, last_login := now } := by
  rw [handle_login_step1_table_full st username password ip ua now r1 r2 i user hfind huser hfree
    hright (by omega)]
  exact ⟨rfl, send_json_error_status _ _ _, rfl, rfl⟩

/-- Claim C25, amended, on the full table `full_sessions`: the user `Abcdef1@` with three failed
attempts logs in with the right password at time 10 and is left with no failed attempts and
`last_login = 10`. -/
theorem table_full_login_resets_user_witness :
    (handle_login_step1 (sample_full_state (sample_twin_user 3)) (some "Abcdef1@")
        (some "Abcdef1@") "10.0.0.1" "agent" 10 sample_rand sample_rand).2.users =
      [{ sample_twin_user 0 with last_login := 10 }] :=
  (table_full_login_resets_user (sample_full_state (sample_twin_user 3)) "Abcdef1@" "Abcdef1@"
      "10.0.0.1" "agent" 10 sample_rand sample_rand 0 (sample_twin_user 3) (by decide) (by decide)
      (by decide) (by decide) full_sessions_length).2.2.2

/-- Claim C25 fails on a full session table. The only user, `Abcdef1@`, has
`failed_attempts = 3` and `last_login = 0`; the table holds 1000 sessions. The login request
whose two fields are `Abcdef1@` (the user's password), made at time 10, is answered 500, and the
record afterwards has `failed_attempts = 0` and `last_login = 10`. The same holds for the handler
entered with these two strings. -/
theorem table_full_login_changes_user_counterexample :
    (sample_full_state (sample_twin_user 3)).users = [sample_twin_user 3] ∧
    (sample_twin_user 3).failed_attempts = 3 ∧
    (sample_twin_user 3).last_login = 0 ∧
    (sample_full_state (sample_twin_user 3)).sessions.length = 1000 ∧
    (handle_login_step1_request (sample_full_state (sample_twin_user 3)) ""
        sample_twin_body "10.0.0.1" "agent" 10 sample_rand sample_rand).1.status = 500 ∧
    (handle_login_step1_request (sample_full_state (sample_twin_user 3)) ""
        sample_twin_body "10.0.0.1" "agent" 10 sample_rand sample_rand).2.users =
      [{ sample_twin_user 0 with last_login := 10 }] ∧
    (handle_login_step1 (sample_full_state (sample_twin_user 3)) (some "Abcdef1@")
        (some "Abcdef1@") "10.0.0.1" "agent" 10 sample_rand sample_rand).2.users =
      [{ sample_twin_user 0 with last_login := 10 }] := by
  rw [handle_login_step1_request_alias _ _ _ _ _ _ _ _ "Abcdef1@" "Abcdef1@" (by decide)
      (by decide),
    handle_login_step1_table_full (sample_full_state (sample_twin_user 3))
      "Abcdef1@" "Abcdef1@" "10.0.0.1" "agent" 10 sample_rand sample_rand 0 (sample_twin_user 3)
      (by decide) (by decide) (by decide) (by decide)
      (by show full_sessions.length ≥ MAX_SESSIONS; rw [full_sessions_length])]
  refine ⟨rfl, rfl, rfl, ?_, send_json_error_status _ _ _, by decide, by decide⟩
  show full_sessions.length = 1000
  rw [full_sessions_length]; rfl

/-! ### The static buffer of `extract_json_value` -/

/-- Claim C27 on the login body of `alice` and on the step-2 body of her session. The first
`extract_json_value` call writes `alice` into the buffer, and the second call, for `password`,
overwrites it with `Abc123!@` (in `simple_server.c` as well), so both pointers designate
`Abc123!@`. Step 1 of the request therefore looks up a user named `Abc123!@` and answers 401,
where the handler entered with the username `alice` and the password `Abc123!@` answers 200.
In the same way step 2 of the request looks up the session `123456` and answers 401, where the
handler entered with `sid-1` and `123456` answers 200. -/
theorem second_extraction_overwrites_first :
    extract_json_value "" sample_login_body "username" = (true, "alice") ∧
    extract_json_value "alice" sample_login_body "password" = (true, "Abc123!@") ∧
    Simple.extract_json_value "" sample_login_body "username" = (true, "alice") ∧
    Simple.extract_json_value "alice" sample_login_body "password" = (true, "Abc123!@") ∧
    handle_login_step1_request (sample_state []) "" sample_login_body "10.0.0.1" "agent" 10
        sample_rand sample_rand =
      handle_login_step1 (sample_state []) (some "Abc123!@") (some "Abc123!@") "10.0.0.1" "agent"
        10 sample_rand sample_rand ∧
    (handle_login_step1_request (sample_state []) "" sample_login_body "10.0.0.1" "agent" 10
        sample_rand sample_rand).1 = send_json_error 401 "Invalid credentials" 10 ∧
    (handle_login_step1 (sample_state []) (some "alice") (some "Abc123!@") "10.0.0.1" "agent" 10
        sample_rand sample_rand).1.status = 200 ∧
    handle_login_step2_request (sample_state [sample_session 1]) "" sample_otp_body 10 =
      handle_login_step2 (sample_state [sample_session 1]) (some "123456") (some "123456") 10 ∧
    (handle_login_step2_request (sample_state [sample_session 1]) "" sample_otp_body 10).1 =
      send_json_error 401 "Invalid session or step" 10 ∧
    (handle_login_step2 (sample_state [sample_session 1]) (some "sid-1") (some "123456")
        10).1.status = 200 := by
  decide

/-! ## The handlers as requests enter them

In `handle_register`, `handle_login_step1` and `handle_login_step2` every local pointer is the
address of the static buffer of `extract_json_value`, so after the last extraction they all
designate the value of the last field extracted. -/

/-! ### Requests to step 1 -/

/-- Claim C2 on `alice`, who starts with `failed_attempts = 0` and `lockout_until = 0`. Five
login requests `alice` / `guess` at times 10 to 50 and then one with her password `Abc123!@` at
time 60: in each request the second extraction overwrites the buffer, so the user looked up is
the one named by the password field; all six are answered 401 `Invalid credentials`, her record
is never touched and she is never locked. When the five requests carry `alice` in the password
field, her own name, they do count against her and lock her until 950; the request with her
password at time 60 is then still answered 401, not 403. -/
theorem wrong_passwords_never_lock :
    (serve_all { value := "", data := sample_state [] }
        [sample_login "alice" "guess" 10, sample_login "alice" "guess" 20,
         sample_login "alice" "guess" 30, sample_login "alice" "guess" 40,
         sample_login "alice" "guess" 50, sample_login "alice" "Abc123!@" 60]).1 =
      [send_json_error 401 "Invalid credentials" 10, send_json_error 401 "Invalid credentials" 20,
       send_json_error 401 "Invalid credentials" 30, send_json_error 401 "Invalid credentials" 40,
       send_json_error 401 "Invalid credentials" 50,
       send_json_error 401 "Invalid credentials" 60] ∧
    (serve_all { value := "", data := sample_state [] }
        [sample_login "alice" "guess" 10, sample_login "alice" "guess" 20,
         sample_login "alice" "guess" 30, sample_login "alice" "guess" 40,
         sample_login "alice" "guess" 50, sample_login "alice" "Abc123!@" 60]).2.data =
      sample_state [] ∧
    sample_user.failed_attempts = 0 ∧ sample_user.lockout_until = 0 ∧
    verify_password "guess" sample_user.salt sample_user.password_hash = false ∧
    verify_password "Abc123!@" sample_user.salt sample_user.password_hash = true ∧
    (serve_all { value := "", data := sample_state [] }
        [sample_login "alice" "alice" 10, sample_login "alice" "alice" 20,
         sample_login "alice" "alice" 30, sample_login "alice" "alice" 40,
         sample_login "alice" "alice" 50]).2.data.users = [sample_locked_user 5 950] ∧
    (serve_all { value := "", data := sample_state [] }
        [sample_login "alice" "alice" 10, sample_login "alice" "alice" 20,
         sample_login "alice" "alice" 30, sample_login "alice" "alice" 40,
         sample_login "alice" "alice" 50, sample_login "alice" "Abc123!@" 60]).1.getLast? =
      some (send_json_error 401 "Invalid credentials" 60) := by
  decide

/-- Claim C3 on `alice` with five failed attempts and a lock that ended at 900, the session
table being empty. The login request with her password at time 1000 looks up the user named
`Abc123!@` and is answered 401 `Invalid credentials`: it does not succeed, no session is
created, and her record keeps `failed_attempts = 5` and `lockout_until = 900`. -/
theorem correct_password_rejected :
    (sample_locked_user 5 900).lockout_until ≤ 1000 ∧
    verify_password "Abc123!@" (sample_locked_user 5 900).salt
      (sample_locked_user 5 900).password_hash = true ∧
    handle_login_step1_request { users := [sample_locked_user 5 900], sessions := [] } ""
        (json_object [("username", "alice"), ("password", "Abc123!@")]) "10.0.0.1" "agent" 1000
        sample_rand sample_rand =
      (send_json_error 401 "Invalid credentials" 1000,
       { users := [sample_locked_user 5 900], sessions := [] }) := by
  decide

/-- Claim C29 on `alice` with `failed_attempts = 5` and a lock that ended at 900. The login
request with the wrong password `guess` at time 1000 is answered 401, but the user looked up is
the one named `guess`: her record keeps `failed_attempts = 5` and `lockout_until = 900`, so she
is not locked again and the counter is not raised. -/
theorem wrong_password_leaves_elapsed_lock :
    (sample_locked_user 5 900).failed_attempts ≥ 5 ∧
    (sample_locked_user 5 900).lockout_until ≤ 1000 ∧
    verify_password "guess" (sample_locked_user 5 900).salt
      (sample_locked_user 5 900).password_hash = false ∧
    handle_login_step1_request { users := [sample_locked_user 5 900], sessions := [] } ""
        (json_object [("username", "alice"), ("password", "guess")]) "10.0.0.1" "agent" 1000
        sample_rand sample_rand =
      (send_json_error 401 "Invalid credentials" 1000,
       { users := [sample_locked_user 5 900], sessions := [] }) := by
  decide

/-! ### Requests to step 2 -/

/-- Claim C4 on the live session `sid-1` at step 1 with the OTP `123456`. The step-2 request
naming `sid-1` with the OTP `123456` looks up the session named `123456`, the value of the `otp`
field, and is answered 401 `Invalid session or step`; the session stays at step 1. Conversely a
request naming the unknown session `sid-9` is answered 200 when its `otp` field `123456` is both
the id and the OTP of a live session at step 1, which it moves to step 2. -/
theorem step2_request_looks_up_the_otp :
    find_session [sample_session 1] "sid-1" 10 = some 0 ∧
    (sample_session 1).step = 1 ∧ (sample_session 1).otp = "123456" ∧
    handle_login_step2_request (sample_state [sample_session 1]) ""
        (json_object [("session_id", "sid-1"), ("otp", "123456")]) 10 =
      (send_json_error 401 "Invalid session or step" 10, sample_state [sample_session 1]) ∧
    find_session [sample_session_of "123456" "123456" 3600 1] "sid-9" 10 = none ∧
    (handle_login_step2_request (sample_state [sample_session_of "123456" "123456" 3600 1]) ""
        (json_object [("session_id", "sid-9"), ("otp", "123456")]) 10).1.status = 200 ∧
    (handle_login_step2_request (sample_state [sample_session_of "123456" "123456" 3600 1]) ""
        (json_object [("session_id", "sid-9"), ("otp", "123456")]) 10).2 =
      sample_state [sample_session_of "123456" "123456" 3600 2] := by
  decide

/-- Claim C16 on the live session `sid-1` at step 1 with the OTP `123456`. The request with the
wrong OTP `000000` at time 10 is answered with an error and changes nothing; the later request
with the stored OTP, at time 20 and before expiry, is answered 401 `Invalid session or step` as
well, and the session is still at step 1: step 2 looks the session up under the value of the
`otp` field. -/
theorem correct_otp_after_wrong_otp_rejected :
    (serve_all { value := "", data := sample_state [sample_session 1] }
        [sample_step2 "sid-1" "000000" 10, sample_step2 "sid-1" "123456" 20]).1 =
      [send_json_error 401 "Invalid session or step" 10,
       send_json_error 401 "Invalid session or step" 20] ∧
    (serve_all { value := "", data := sample_state [sample_session 1] }
        [sample_step2 "sid-1" "000000" 10, sample_step2 "sid-1" "123456" 20]).2.data =
      sample_state [sample_session 1] ∧
    find_session [sample_session 1] "sid-1" 20 = some 0 ∧
    (sample_session 1).step = 1 ∧ (sample_session 1).otp = "123456" := by
  decide

/-- Claim C20, amended: a step-2 request carrying both fields is answered 200, or 401 with the
message `Invalid session or step` (no live session is found, or the one found is not at step 1),
or 401 with the message `Invalid OTP` (the session found is at step 1 and its OTP differs from
the value supplied); in both failures nothing changes. Every authentication failure has the
status 401, and the wrong-OTP failure has a message of its own. The session is looked up under
the value of the `otp` field, which both pointers designate. -/
theorem step2_failure_responses (st : ServerState) (value body session_id otp : String)
    (now : Int)
    (hsession_id : json_string_value body "session_id" = some session_id)
    (hotp : json_string_value body "otp" = some otp) :
    (handle_login_step2_request st value body now).1.status = 200 ∨
      ((handle_login_step2_request st value body now).1 =
          send_json_error 401 "Invalid session or step" now ∧
        (handle_login_step2_request st value body now).2 = st ∧
        ∀ (i : Nat) (s : Session), find_session st.sessions otp now = some i →
          st.sessions[i]? = some s → s.step ≠ 1) ∨
      ((handle_login_step2_request st value body now).1 =
          send_json_error 401 "Invalid OTP" now ∧
        (handle_login_step2_request st value body now).2 = st ∧
        ∃ (i : Nat) (s : Session), find_session st.sessions otp now = some i ∧
          st.sessions[i]? = some s ∧ s.step = 1 ∧ s.otp ≠ otp) := by
  rw [handle_login_step2_request_alias st value body now session_id otp hsession_id hotp]
  cases hf : find_session st.sessions otp now with
  | none =>
    right; left
    refine ⟨by simp [handle_login_step2, hf], by simp [handle_login_step2, hf], ?_⟩
    intro i s h
    cases h
  | some i =>
    obtain ⟨s, hs, -, -, -⟩ := find_session_some hf
    by_cases hstep : s.step = 1
    · by_cases hcode : s.otp = otp
      · left
        simp [handle_login_step2, hf, hs, hstep, hcode, send_json_success_status]
      · right; right
        exact ⟨by simp [handle_login_step2, hf, hs, hstep, hcode],
          by simp [handle_login_step2, hf, hs, hstep, hcode], i, s, rfl, hs, hstep, hcode⟩
    · right; left
      refine ⟨by simp [handle_login_step2, hf, hs, hstep],
        by simp [handle_login_step2, hf, hs, hstep], ?_⟩
      intro j t hj ht
      cases hj
      rw [hs] at ht
      cases ht
      exact hstep

/-- Claim C20, amended, on the live session `sid-1` at step 1: the request whose `otp` field is
`sid-1` finds that session, whose OTP is `123456`, and is answered 401 `Invalid OTP`. -/
theorem step2_failure_responses_witness :
    (handle_login_step2_request (sample_state [sample_session 1]) ""
        (json_object [("session_id", "sid-1"), ("otp", "sid-1")]) 10).1 =
        send_json_error 401 "Invalid OTP" 10 ∧
      (handle_login_step2_request (sample_state [sample_session 1]) ""
        (json_object [("session_id", "sid-1"), ("otp", "sid-1")]) 10).2 =
        sample_state [sample_session 1] ∧
      ∃ (i : Nat) (s : Session),
        find_session (sample_state [sample_session 1]).sessions "sid-1" 10 = some i ∧
        (sample_state [sample_session 1]).sessions[i]? = some s ∧ s.step = 1 ∧
        s.otp ≠ "sid-1" :=
  (step2_failure_responses (sample_state [sample_session 1]) ""
      (json_object [("session_id", "sid-1"), ("otp", "sid-1")]) "sid-1" "sid-1" 10
      (by decide) (by decide)).elim
    (fun h => absurd h (by decide))
    (fun h => h.elim (fun h2 => absurd h2.1 (by decide)) id)

/-- Claim C20 fails on two failing requests at time 10 against the live session `sid-1` at step
1: the one whose `otp` field is `000000` finds no session and is answered
`Invalid session or step`, the one whose `otp` field is `sid-1` finds the session and is answered
`Invalid OTP`. The statuses agree and the bodies differ, so the failed check can be told. -/
theorem step2_messages_differ_counterexample :
    (handle_login_step2_request (sample_state [sample_session 1]) ""
        (json_object [("session_id", "sid-1"), ("otp", "000000")]) 10).1 =
      send_json_error 401 "Invalid session or step" 10 ∧
    (handle_login_step2_request (sample_state [sample_session 1]) ""
        (json_object [("session_id", "sid-1"), ("otp", "sid-1")]) 10).1 =
      send_json_error 401 "Invalid OTP" 10 ∧
    (send_json_error 401 "Invalid session or step" 10).status =
      (send_json_error 401 "Invalid OTP" 10).status ∧
    (send_json_error 401 "Invalid session or step" 10).body ≠
      (send_json_error 401 "Invalid OTP" 10).body := by
  decide

/-! ### Step 3, resend and expired sessions -/

/-- `find_session` returns the first slot whose session carries the id, is active and has
`expires_at > now`. -/
theorem find_session_eq_some_iff (sessions : List Session) (session_id : String) (now : Int)
    (i : Nat) :
    find_session sessions session_id now = some i ↔
      (∃ s, sessions[i]? = some s ∧ s.session_id = session_id ∧ s.is_active ≠ 0 ∧
        s.expires_at > now) ∧
      ∀ (j : Nat) (t : Session), j < i → sessions[j]? = some t →
        ¬ (t.session_id = session_id ∧ t.is_active ≠ 0 ∧ t.expires_at > now) := by
  unfold find_session
  rw [findIdx?_eq_some_iff_first]
  simp

/-- `find_session` returns `NULL` exactly when no session carrying the id is active with
`expires_at > now`. -/
theorem find_session_eq_none_iff (sessions : List Session) (session_id : String) (now : Int) :
    find_session sessions session_id now = none ↔
      ∀ s ∈ sessions, ¬ (s.session_id = session_id ∧ s.is_active ≠ 0 ∧ s.expires_at > now) := by
  unfold find_session
  rw [List.findIdx?_eq_none_iff]
  simp

/-- `find_session` finds a slot exactly when some session carrying the id is active with
`expires_at > now`. -/
theorem find_session_isSome_iff (sessions : List Session) (session_id : String) (now : Int) :
    (∃ i, find_session sessions session_id now = some i) ↔
      ∃ s ∈ sessions, s.session_id = session_id ∧ s.is_active ≠ 0 ∧ s.expires_at > now := by
  constructor
  · rintro ⟨i, hi⟩
    obtain ⟨s, hs, h⟩ := find_session_some hi
    exact ⟨s, List.getElem?_mem hs, h⟩
  · rintro ⟨s, hs, h⟩
    cases hf : find_session sessions session_id now with
    | none =>
      exact absurd h ((find_session_eq_none_iff sessions session_id now).mp hf s hs)
    | some i => exact ⟨i, rfl⟩

/-- Claim C5, amended: `handle_login_step3` is answered 200 exactly when the first session of the
table that carries the given id, is active and has `expires_at > now` (the one `find_session`
returns) is at step 2. It then sets the step of that session to 3, changes nothing else, and
answers with the token `jwt_token_<username>_<now>` built from the username stored in that
session. When the session ids of the table are pairwise distinct, this is the condition that
some session with the given id is active, has `expires_at > now` and is at step 2. -/
theorem step3_succeeds_iff (st : ServerState) (session_id : Option String) (now : Int) :
    ((handle_login_step3 st session_id now).1.status = 200 ↔
        ∃ (id : String) (i : Nat) (s : Session), session_id = some id ∧
          st.sessions[i]? = some s ∧ s.session_id = id ∧ s.is_active ≠ 0 ∧ s.expires_at > now ∧
          (∀ (j : Nat) (t : Session), j < i → st.sessions[j]? = some t →
            ¬ (t.session_id = id ∧ t.is_active ≠ 0 ∧ t.expires_at > now)) ∧
          s.step = 2) ∧
      (∀ (id : String) (i : Nat) (s : Session), session_id = some id →
        st.sessions[i]? = some s → s.session_id = id → s.is_active ≠ 0 → s.expires_at > now →
        (∀ (j : Nat) (t : Session), j < i → st.sessions[j]? = some t →
          ¬ (t.session_id = id ∧ t.is_active ≠ 0 ∧ t.expires_at > now)) →
        s.step = 2 →
        handle_login_step3 st session_id now =
          ({ status := 200,
             body := snprintf 1024
               ("\x7b\"success\": true, \"token\": \"" ++
                 ("jwt_token_" ++ s.username ++ "_" ++ toString now) ++
                 "\", \"message\": \"Login successful\", \"user\": \"" ++ s.username ++
                 "\"\x7d") },
           { st with sessions := st.sessions.set i { s with step := 3 } })) ∧
      ((st.sessions.map Session.session_id).Nodup →
        ((handle_login_step3 st session_id now).1.status = 200 ↔
          ∃ s ∈ st.sessions, session_id = some s.session_id ∧ s.is_active ≠ 0 ∧
            s.expires_at > now ∧ s.step = 2)) := by
  have hexact : ∀ (id : String) (i : Nat) (s : Session), session_id = some id →
      st.sessions[i]? = some s → s.session_id = id → s.is_active ≠ 0 → s.expires_at > now →
      (∀ (j : Nat) (t : Session), j < i → st.sessions[j]? = some t →
        ¬ (t.session_id = id ∧ t.is_active ≠ 0 ∧ t.expires_at > now)) →
      s.step = 2 →
      handle_login_step3 st session_id now =
        ({ status := 200,
           body := snprintf 1024
             ("\x7b\"success\": true, \"token\": \"" ++
               ("jwt_token_" ++ s.username ++ "_" ++ toString now) ++
               "\", \"message\": \"Login successful\", \"user\": \"" ++ s.username ++
               "\"\x7d") },
         { st with sessions := st.sessions.set i { s with step := 3 } }) := by
    intro id i s hid hs hsid hact hexp hfirst hstep
    have hf : find_session st.sessions id now = some i :=
      (find_session_eq_some_iff st.sessions id now i).mpr ⟨⟨s, hs, hsid, hact, hexp⟩, hfirst⟩
    subst hid
    simp [handle_login_step3, hf, hs, hstep, login_token]
  have hiff : (handle_login_step3 st session_id now).1.status = 200 ↔
      ∃ (id : String) (i : Nat) (s : Session), session_id = some id ∧
        st.sessions[i]? = some s ∧ s.session_id = id ∧ s.is_active ≠ 0 ∧ s.expires_at > now ∧
        (∀ (j : Nat) (t : Session), j < i → st.sessions[j]? = some t →
          ¬ (t.session_id = id ∧ t.is_active ≠ 0 ∧ t.expires_at > now)) ∧
        s.step = 2 := by
    constructor
    · intro hok
      cases session_id with
      | none => simp [handle_login_step3, send_json_error_status] at hok
      | some id =>
        cases hf : find_session st.sessions id now with
        | none => simp [handle_login_step3, hf, send_json_error_status] at hok
        | some i =>
          obtain ⟨⟨s, hs, hsid, hact, hexp⟩, hfirst⟩ :=
            (find_session_eq_some_iff st.sessions id now i).mp hf
          by_cases hstep : s.step = 2
          · exact ⟨id, i, s, rfl, hs, hsid, hact, hexp, hfirst, hstep⟩
          · simp [handle_login_step3, hf, hs, hstep, send_json_error_status] at hok
    · rintro ⟨id, i, s, hid, hs, hsid, hact, hexp, hfirst, hstep⟩
      rw [hexact id i s hid hs hsid hact hexp hfirst hstep]
  refine ⟨hiff, hexact, fun huniq => ?_⟩
  rw [hiff]
  constructor
  · rintro ⟨id, i, s, hid, hs, hsid, hact, hexp, -, hstep⟩
    exact ⟨s, List.getElem?_mem hs, by rw [hid, hsid], hact, hexp, hstep⟩
  · rintro ⟨s, hs, hid, hact, hexp, hstep⟩
    obtain ⟨i, hi⟩ := List.mem_iff_getElem?.mp hs
    have hf := find_session_of_live huniq hi hact hexp
    obtain ⟨-, hfirst⟩ := (find_session_eq_some_iff st.sessions s.session_id now i).mp hf
    exact ⟨s.session_id, i, s, hid, hi, rfl, hact, hexp, hfirst, hstep⟩

/-- Claim C5, amended, on the live session `sid-1` of `alice` at step 2: the request at time 10
is answered 200 with the token `jwt_token_alice_10` and leaves the session at step 3. -/
theorem step3_succeeds_iff_witness :
    handle_login_step3 (sample_state [sample_session 2]) (some "sid-1") 10 =
      ({ status := 200,
         body := "\x7b\"success\": true, \"token\": \"jwt_token_alice_10\", \"message\": \"Login successful\", \"user\": \"alice\"\x7d" },
       sample_state [sample_session 3]) :=
  ((step3_succeeds_iff (sample_state [sample_session 2]) (some "sid-1") 10).2.1 "sid-1" 0
    (sample_session 2) rfl (by decide) (by decide) (by decide) (by decide)
    (fun j t hj => absurd hj (by omega)) (by decide)).trans (by decide)

/-- Claim C5 fails when two sessions carry the same id. Both sessions are `sid-1`, active and
not expired at time 10; the first is at step 3, the second at step 2. A session with the given
id at step 2 exists, yet the step-3 request is answered 401 `Invalid session or step` and
changes nothing, since `find_session` returns the first of the two. -/
theorem step3_duplicate_id_counterexample :
    (sample_session 2) ∈ [sample_session 3, sample_session 2] ∧
    (sample_session 2).session_id = "sid-1" ∧ (sample_session 2).is_active ≠ 0 ∧
    (sample_session 2).expires_at > 10 ∧ (sample_session 2).step = 2 ∧
    handle_login_step3 (sample_state [sample_session 3, sample_session 2]) (some "sid-1") 10 =
      (send_json_error 401 "Invalid session or step" 10,
       sample_state [sample_session 3, sample_session 2]) ∧
    handle_login_step3_request (sample_state [sample_session 3, sample_session 2]) ""
        (json_object [("session_id", "sid-1")]) 10 =
      (send_json_error 401 "Invalid session or step" 10,
       sample_state [sample_session 3, sample_session 2]) := by
  decide

/-- Claim C15, amended: `handle_resend_otp` does not read the step. It is answered 200 exactly
when some session carrying the given id is active with `expires_at > now`, and it then writes a
new OTP into the session that `find_session` returns, whatever the step of that session (1, 2
or 3 alike) and without changing it. -/
theorem resend_ignores_step (st : ServerState) (session_id : Option String) (now : Int)
    (rand_otp : Nat → Nat) :
    ((handle_resend_otp st session_id now rand_otp).1.status = 200 ↔
        ∃ s ∈ st.sessions, session_id = some s.session_id ∧ s.is_active ≠ 0 ∧
          s.expires_at > now) ∧
      (∀ (id : String) (i : Nat) (s : Session), session_id = some id →
        find_session st.sessions id now = some i → st.sessions[i]? = some s →
        (handle_resend_otp st session_id now rand_otp).1.status = 200 ∧
          (handle_resend_otp st session_id now rand_otp).2 =
            { st with sessions := st.sessions.set i { s with otp := generate_otp rand_otp } }) := by
  constructor
  · constructor
    · intro hok
      cases session_id with
      | none => simp [handle_resend_otp, send_json_error_status] at hok
      | some id =>
        cases hf : find_session st.sessions id now with
        | none => simp [handle_resend_otp, hf, send_json_error_status] at hok
        | some i =>
          obtain ⟨s, hs, hid, hact, hexp⟩ := find_session_some hf
          exact ⟨s, List.getElem?_mem hs, by rw [hid], hact, hexp⟩
    · rintro ⟨s, hs, hid, hact, hexp⟩
      obtain ⟨i, hi⟩ := (find_session_isSome_iff st.sessions s.session_id now).mpr
        ⟨s, hs, rfl, hact, hexp⟩
      obtain ⟨t, ht, -⟩ := find_session_some hi
      subst hid
      simp [handle_resend_otp, hi, ht]
  · intro id i s hid hf hs
    subst hid
    simp [handle_resend_otp, hf, hs]

/-- Claim C15, amended, on the live session `sid-1` at step 3: the request is answered 200 and
the session, still at step 3, carries the new OTP `012345`. -/
theorem resend_ignores_step_witness :
    (handle_resend_otp (sample_state [sample_session 3]) (some "sid-1") 10 sample_rand).1.status =
        200 ∧
      (handle_resend_otp (sample_state [sample_session 3]) (some "sid-1") 10 sample_rand).2 =
        sample_state [sample_session_of "sid-1" "012345" 3600 3] :=
  have h := (resend_ignores_step (sample_state [sample_session 3]) (some "sid-1") 10
    sample_rand).2 "sid-1" 0 (sample_session 3) rfl (by decide) (by decide)
  ⟨h.1, h.2.trans (by decide)⟩

/-! ### Registration requests -/

/-- Claim C18 on two registrations from an empty table. The four pointers of `handle_register`
designate the value of the `mobile` field. The first request is stored under the username and
the email `Abcdef1@x.com`, its `mobile` field. The second request names that username and that
email, both held by the active first user, and is answered 200 and stored, under its own
`mobile` field `Zbcdef1@y.org`. A request with a fresh username and a fresh email is answered
400 `Username already exists` when its `mobile` field is `Abcdef1@x.com`. -/
theorem taken_username_registered_again :
    (serve_all { value := "", data := { users := [], sessions := [] } }
        [sample_registration "carol" "carol@x.com" "Abc123!@" "Abcdef1@x.com" 10,
         sample_registration "Abcdef1@x.com" "Abcdef1@x.com" "Abc123!@" "Zbcdef1@y.org" 20]).1 =
      [send_json_success "User registered successfully" 10,
       send_json_success "User registered successfully" 20] ∧
    ((serve_all { value := "", data := { users := [], sessions := [] } }
        [sample_registration "carol" "carol@x.com" "Abc123!@" "Abcdef1@x.com" 10,
         sample_registration "Abcdef1@x.com" "Abcdef1@x.com" "Abc123!@" "Zbcdef1@y.org"
           20]).2.data.users.map fun u => (u.username, u.email, u.is_active)) =
      [("Abcdef1@x.com", "Abcdef1@x.com", 1), ("Zbcdef1@y.org", "Zbcdef1@y.org", 1)] ∧
    (serve_all { value := "", data := { users := [], sessions := [] } }
        [sample_registration "carol" "carol@x.com" "Abc123!@" "Abcdef1@x.com" 10,
         sample_registration "dave" "dave@x.com" "Abc123!@" "Abcdef1@x.com" 20]).1 =
      [send_json_success "User registered successfully" 10,
       send_json_error 400 "Username already exists" 20] := by
  decide

section

set_option maxRecDepth 100000

/-- Claim C19 on a registration with the password `Abc123!@`. The request is answered 200, and
the record stored carries the hash of `Abcdef1@x.com`, the value of the `mobile` field, which all
four pointers designate. `Abc123!@` does not verify against that hash (it would against its
own), and the login request `carol` / `Abc123!@` that follows is answered 401. -/
theorem registered_password_does_not_log_in :
    (serve_all { value := "", data := { users := [], sessions := [] } }
        [sample_registration "carol" "carol@x.com" "Abc123!@" "Abcdef1@x.com" 10,
         sample_login "carol" "Abc123!@" 20]).1 =
      [send_json_success "User registered successfully" 10,
       send_json_error 401 "Invalid credentials" 20] ∧
    (serve_all { value := "", data := { users := [], sessions := [] } }
        [sample_registration "carol" "carol@x.com" "Abc123!@" "Abcdef1@x.com" 10]).2.data.users =
      [{ id := 1, username := "Abcdef1@x.com", email := "Abcdef1@x.com",
         password_hash := hash_password_with_salt "Abcdef1@x.com" (generate_salt sample_rand 32),
         salt := generate_salt sample_rand 32, mobile := "Abcdef1@x.com", face_data := "",
         created_at := 10, last_login := 0, failed_attempts := 0, lockout_until := 0,
         is_active := 1, is_verified := 0 }] ∧
    verify_password "Abc123!@" (generate_salt sample_rand 32)
      (hash_password_with_salt "Abcdef1@x.com" (generate_salt sample_rand 32)) = false ∧
    verify_password "Abc123!@" (generate_salt sample_rand 32)
      (hash_password_with_salt "Abc123!@" (generate_salt sample_rand 32)) = true := by
  decide

end

end Production

namespace Secure

/-! ## Progressive blocking in `production_server_secure.c` -/

theorem put_same (table : RateLimitTable) (ip : String) (row : RateLimitRow) :
    table.put ip row ip = some row := by
  simp [RateLimitTable.put]

/-- `security_log` returns for the levels whose risk score is below 7. -/
theorem security_log_low_risk (fuel : Nat) (level : LogLevel) (h : risk_score level < 7) :
    security_log (fuel + 1) level = some () := by
  have : ¬ (risk_score level ≥ 7) := by omega
  simp [security_log, this]

/-- `security_log(LOG_CRITICAL, ...)` and `handle_security_incident` call each other without
end: neither returns, whatever the number of nested calls allowed. -/
theorem handle_security_incident_never_returns (fuel : Nat) :
    security_log fuel LogLevel.LOG_CRITICAL = none ∧ handle_security_incident fuel = none := by
  induction fuel with
  | zero => simp [security_log, handle_security_incident]
  | succ n ih => simp [security_log, handle_security_incident, risk_score, ih.1, ih.2]

/-- `security_log(LOG_SECURITY, ...)` never returns. -/
theorem security_log_security_never_returns (fuel : Nat) :
    security_log fuel LogLevel.LOG_SECURITY = none := by
  cases fuel with
  | zero => simp [security_log]
  | succ n => simp [security_log, risk_score, (handle_security_incident_never_returns n).2]

/-- Claim C10: when the lookup finds a row with `blocked_until > now`, the request is denied (the
call returns 0, `security_log(LOG_WARNING, ...)` having returned) and the table, hence the row
with its `window_start`, `request_count`, `blocked_until` and `violation_count`, is left as it
was, whatever the window and the counter hold. -/
theorem blocked_request_denied (fuel : Nat) (table : RateLimitTable) (write_ok : Bool)
    (ip : String) (now : Int) (row : RateLimitRow) (hrow : table ip = some row)
    (hblocked : row.blocked_until > now) :
    check_rate_limit (fuel + 1) table true write_ok ip now = (some 0, table) := by
  simp [check_rate_limit, hrow, hblocked, security_log_low_risk fuel LogLevel.LOG_WARNING
    (by decide)]

theorem blocked_request_denied_witness :
    (sample_row 7 2 600).blocked_until > 30 ∧
      check_rate_limit 1 (sample_table 7 2 600) true true "10.0.0.9" 30 =
        (some 0, sample_table 7 2 600) :=
  ⟨by decide,
    blocked_request_denied 0 (sample_table 7 2 600) true "10.0.0.9" 30 (sample_row 7 2 600)
      (by decide) (by decide)⟩

/-- At the ceiling the call writes the block and then never returns. -/
theorem check_rate_limit_at_ceiling (fuel : Nat) (table : RateLimitTable) (write_ok : Bool)
    (ip : String) (now : Int) (row : RateLimitRow) (hrow : table ip = some row)
    (hfree : row.blocked_until ≤ now) (hwindow : now - row.window_start ≤ RATE_LIMIT_WINDOW)
    (hcount : wrapInt32 row.request_count ≥ RATE_LIMIT_REQUESTS) :
    check_rate_limit fuel table true write_ok ip now =
      (none,
       if write_ok then
         table.put ip
           { row with
             blocked_until :=
               now + wrapInt32 (300 * wrapInt32 (wrapInt32 row.violation_count + 1)),
             violation_count := wrapInt32 (wrapInt32 row.violation_count + 1),
             last_seen := now }
       else table) := by
  have hb : ¬ (row.blocked_until > now) := by omega
  have hw : ¬ (now - row.window_start > RATE_LIMIT_WINDOW) := by omega
  simp only [check_rate_limit, if_true, hrow, hb, hw, if_false, hcount,
    security_log_security_never_returns, Option.map_none']

/-- Once the block has elapsed and the window is past, the call resets the row and returns 1,
whatever the number of nested calls allowed. -/
theorem check_rate_limit_window_past (fuel : Nat) (table : RateLimitTable) (ip : String)
    (now : Int) (row : RateLimitRow) (hrow : table ip = some row)
    (hfree : row.blocked_until ≤ now)
    (hpast : now - row.window_start > RATE_LIMIT_WINDOW) :
    check_rate_limit fuel table true true ip now =
      (some 1,
       table.put ip { row with window_start := now, request_count := 1, last_seen := now }) := by
  have hb : ¬ (row.blocked_until > now) := by omega
  simp [check_rate_limit, hrow, hb, hpast]

/-- Claim C8 at a row that has reached the ceiling. The row of `10.0.0.9` is not blocked at time
30, its window (opened at 0) is open and its `request_count` is 100. The call stores
`blocked_until = 30 + 300 * (0 + 1) = 330` and `violation_count = 1`, then calls
`security_log(LOG_SECURITY, ...)`, whose risk score 7 makes it call `handle_security_incident`,
which calls `security_log(LOG_CRITICAL, ...)`, which calls `handle_security_incident` again, and
so on: whatever the number of nested calls allowed, `check_rate_limit` does not return, so the
request is never answered "denied". -/
theorem ceiling_request_never_answered :
    (sample_table 100 0 0) "10.0.0.9" = some (sample_row 100 0 0) ∧
    (sample_row 100 0 0).blocked_until ≤ 30 ∧
    30 - (sample_row 100 0 0).window_start ≤ RATE_LIMIT_WINDOW ∧
    (sample_row 100 0 0).request_count = 100 ∧
    (∀ fuel : Nat,
      (check_rate_limit fuel (sample_table 100 0 0) true true "10.0.0.9" 30).1 = none) ∧
    (∀ fuel : Nat,
      (check_rate_limit fuel (sample_table 100 0 0) true true "10.0.0.9" 30).2 "10.0.0.9" =
        some { sample_row 100 0 0 with
               blocked_until := 330, violation_count := 1, last_seen := 30 }) ∧
    (∀ fuel : Nat, security_log fuel LogLevel.LOG_SECURITY = none) := by
  have h := fun fuel : Nat =>
    check_rate_limit_at_ceiling fuel (sample_table 100 0 0) true "10.0.0.9" 30
      (sample_row 100 0 0) (by decide) (by decide) (by decide) (by decide)
  refine ⟨by decide, by decide, by decide, by decide, fun fuel => ?_, fun fuel => ?_,
    security_log_security_never_returns⟩
  · rw [h fuel]
  · rw [h fuel]
    simp only [if_true]
    rw [put_same]
    decide

section

set_option maxRecDepth 100000

end

/-! ### CSRF tokens and input sanitising -/

/-- When the lookup ends with `valid = 1`: the statement prepares, the session has a row with
`is_active = 1`, and the stored token is the provided one. The expiry time of the row is not
read. -/
theorem csrf_token_valid_iff (sessions : SessionTable) (lookup_ok : Bool)
    (session_id provided_token : String) :
    csrf_token_valid sessions lookup_ok session_id provided_token = 1 ↔
      lookup_ok = true ∧ ∃ row, sessions session_id = some row ∧ row.is_active = 1 ∧
        row.csrf_token = provided_token := by
  unfold csrf_token_valid
  cases lookup_ok
  · simp
  · cases hrow : sessions session_id with
    | none => simp [hrow]
    | some row =>
      by_cases h1 : row.is_active = 1
      · by_cases h2 : row.csrf_token = provided_token <;> simp [hrow, h1, h2]
      · simp [hrow, h1]

/-- `validate_csrf_token` returns 1 exactly when the lookup ends with `valid = 1`, whatever the
number of nested calls allowed; in every other case with two non-null arguments it calls
`security_log(LOG_SECURITY, ...)` and does not return. -/
theorem validate_csrf_token_accepts_iff (fuel : Nat) (sessions : SessionTable) (lookup_ok : Bool)
    (session_id provided_token : String) :
    (validate_csrf_token fuel sessions lookup_ok (some session_id) (some provided_token) =
        some 1 ↔
      lookup_ok = true ∧ ∃ row, sessions session_id = some row ∧ row.is_active = 1 ∧
        row.csrf_token = provided_token) ∧
      (validate_csrf_token fuel sessions lookup_ok (some session_id) (some provided_token) ≠
          some 1 →
        validate_csrf_token fuel sessions lookup_ok (some session_id) (some provided_token) =
          none) := by
  rw [← csrf_token_valid_iff]
  have hval : csrf_token_valid sessions lookup_ok session_id provided_token = 0 ∨
      csrf_token_valid sessions lookup_ok session_id provided_token = 1 := by
    unfold csrf_token_valid
    split
    · split
      · split
        · split
          · right; rfl
          · left; rfl
        · left; rfl
      · left; rfl
    · left; rfl
  unfold validate_csrf_token
  rcases hval with h0 | h1
  · simp [h0, security_log_security_never_returns]
  · simp [h1]

/-- Claim C21 at a session that has expired. The row of `sid-1` has `expires_at = 3600`,
`is_active = 1` and the token `tok`. `validate_csrf_token("sid-1", "tok")` returns 1 whatever the
time is, since it reads no clock; `validate_session` for the same session from its own address
returns 0 at time 5000 (and 1 at time 3599). -/
theorem csrf_token_accepted_after_expiry :
    (sample_sessions 1) "sid-1" = some (sample_session_row 1) ∧
    (sample_session_row 1).expires_at = 3600 ∧
    (∀ fuel : Nat,
      validate_csrf_token fuel (sample_sessions 1) true (some "sid-1") (some "tok") = some 1) ∧
    (∀ fuel : Nat,
      (validate_session fuel (sample_sessions 1) true true (some "sid-1") (some "10.0.0.1")
        5000).1 = some 0) ∧
    (∀ fuel : Nat,
      (validate_session fuel (sample_sessions 1) true true (some "sid-1") (some "10.0.0.1")
        3599).1 = some 1) := by
  refine ⟨by decide, by decide, fun fuel => ?_, fun fuel => ?_, fun fuel => ?_⟩
  · exact ((validate_csrf_token_accepts_iff fuel (sample_sessions 1) true "sid-1" "tok").1).2
      ⟨rfl, sample_session_row 1, by decide, by decide, by decide⟩
  · have h : (sample_sessions 1) "sid-1" = some (sample_session_row 1) := by decide
    have h2 : ¬ ((sample_session_row 1).expires_at > 5000) := by decide
    simp only [validate_session, if_true, h, h2, if_false]
  · have h : (sample_sessions 1) "sid-1" = some (sample_session_row 1) := by decide
    have h2 : (sample_session_row 1).expires_at > 3599 := by decide
    have h3 : (sample_session_row 1).ip_address = "10.0.0.1" ∧
        wrapInt32 (sample_session_row 1).is_active ≠ 0 := by decide
    simp only [validate_session, if_true, h, h2]
    rw [if_pos h3]

/-- The test of the copying loop keeps exactly the characters that are not dangerous: carriage
return, line feed and the zero byte are below 32. -/
theorem sanitize_keep_eq (c : Char) : sanitize_keep c = !is_dangerous c := by
  unfold sanitize_keep is_dangerous
  by_cases h : c.toNat < 32
  · have h2 : ¬ c.toNat ≥ 32 := by omega
    simp [h, h2]
  · have h2 : c.toNat ≥ 32 := by omega
    have e1 : c ≠ Char.ofNat 13 := by rintro rfl; revert h2; decide
    have e2 : c ≠ Char.ofNat 10 := by rintro rfl; revert h2; decide
    have e3 : c ≠ Char.ofNat 0 := by rintro rfl; revert h2; decide
    have b1 : (c != Char.ofNat 13) = true := by simpa using e1
    have b2 : (c != Char.ofNat 10) = true := by simpa using e2
    have b3 : (c != Char.ofNat 0) = true := by simpa using e3
    rw [b1, b2, b3]
    simp [h, h2, bne]

theorem sanitize_chars_eq_filter (l : List Char) :
    sanitize_chars l = l.filter fun c => !is_dangerous c := by
  induction l with
  | nil => rfl
  | cons c rest ih =>
    simp only [sanitize_chars, List.filter_cons, sanitize_keep_eq, ih]

/-- Claim C30: for every input string, `sanitize_input` returns the input with the characters
`<`, `>`, double quote, apostrophe, `&` and every byte below 32 removed and the others kept in
order; applying it to its own result changes nothing; it returns the input itself when the input
has none of these characters. (For `NULL` it returns `NULL`.) -/
theorem sanitize_input_removes_dangerous (input : String) :
    sanitize_input (some input) =
        some (String.mk (input.toList.filter fun c => !is_dangerous c)) ∧
      sanitize_input (sanitize_input (some input)) = sanitize_input (some input) ∧
      ((∀ c ∈ input.toList, is_dangerous c = false) → sanitize_input (some input) = some input) ∧
      sanitize_input none = none := by
  refine ⟨?_, ?_, ?_, rfl⟩
  · simp [sanitize_input, sanitize_chars_eq_filter]
  · simp [sanitize_input, sanitize_chars_eq_filter]
  · intro h
    simp only [sanitize_input, sanitize_chars_eq_filter]
    have : (input.toList.filter fun c => !is_dangerous c) = input.toList := by
      rw [List.filter_eq_self]
      intro c hc
      simp [h c hc]
    rw [this]
    rfl

/-- Claim C30 on two strings: one with `<`, `>`, `&` and a line feed, which are removed, and
one without dangerous characters, which is returned as it is. -/
theorem sanitize_input_removes_dangerous_witness :
    sanitize_input (some "a<b>&c\n d") = some "abc d" ∧
      sanitize_input (some "abc d") = some "abc d" :=
  ⟨(sanitize_input_removes_dangerous "a<b>&c\n d").1.trans (by decide),
    (sanitize_input_removes_dangerous "abc d").2.2.1 (by decide)⟩

end Secure

namespace V3

/-! ## The window boundary in `production_server_secure.c` and `production_server_v3.c` -/

/-- Strictly past the window length the entry of `production_server_secure.c` is reset and the
request allowed. -/
theorem secure_window_reset_when_past (fuel : Nat) (table : Secure.RateLimitTable) (ip : String)
    (now : Int) (row : Secure.RateLimitRow) (hrow : table ip = some row)
    (hfree : row.blocked_until ≤ now)
    (hpast : now - row.window_start > Secure.RATE_LIMIT_WINDOW) :
    Secure.check_rate_limit fuel table true true ip now =
      (some 1,
       table.put ip { row with window_start := now, request_count := 1, last_seen := now }) :=
  Secure.check_rate_limit_window_past fuel table ip now row hrow hfree hpast

/-- Strictly past the window length the entry of `production_server_v3.c` is reset and the
request allowed. -/
theorem v3_window_reset_when_past (table : RateLimitTable) (ip : String) (now : Int)
    (row : RateLimitRow) (hrow : table ip = some row)
    (hpast : now - row.window_start > RATE_LIMIT_WINDOW) :
    check_rate_limit table true true ip now =
      (1, table.put ip { request_count := 1, window_start := now }) := by
  simp [check_rate_limit, hrow, hpast]

/-- Claim C11 at the boundary `now - window_start = 60`: in both files the window test is
`now - window_start > RATE_LIMIT_WINDOW`, so the entry is not reset. With `request_count = 5`
the request is allowed but the counter goes to 6 and `window_start` stays 0; with
`request_count = 100` the request is not allowed: `production_server_v3.c` denies it, and
`production_server_secure.c` sets a block on the row, with `window_start` still 0 and
`request_count` still 100, and does not return. -/
theorem window_boundary_not_reset :
    (Secure.sample_table 5 0 0) "10.0.0.9" = some (Secure.sample_row 5 0 0) ∧
      (Secure.sample_row 5 0 0).blocked_until ≤ 60 ∧
      60 - (Secure.sample_row 5 0 0).window_start ≥ Secure.RATE_LIMIT_WINDOW ∧
      (Secure.check_rate_limit 0 (Secure.sample_table 5 0 0) true true "10.0.0.9" 60).1 =
        some 1 ∧
      (Secure.check_rate_limit 0 (Secure.sample_table 5 0 0) true true "10.0.0.9" 60).2
          "10.0.0.9" =
        some { Secure.sample_row 5 0 0 with
               request_count := 6, total_requests := 6, last_seen := 60 } ∧
      (∀ fuel : Nat,
        (Secure.check_rate_limit fuel (Secure.sample_table 100 0 0) true true "10.0.0.9"
          60).1 = none) ∧
      (Secure.check_rate_limit 0 (Secure.sample_table 100 0 0) true true "10.0.0.9" 60).2
          "10.0.0.9" =
        some { Secure.sample_row 100 0 0 with
               blocked_until := 360, violation_count := 1, last_seen := 60 } ∧
      (sample_table 5) "10.0.0.9" = some { request_count := 5, window_start := 0 } ∧
      (60 : Int) - 0 ≥ RATE_LIMIT_WINDOW ∧
      (check_rate_limit (sample_table 5) true true "10.0.0.9" 60).1 = 1 ∧
      (check_rate_limit (sample_table 5) true true "10.0.0.9" 60).2 "10.0.0.9" =
        some { request_count := 6, window_start := 0 } ∧
      check_rate_limit (sample_table 100) true true "10.0.0.9" 60 = (0, sample_table 100) ∧
      (sample_table 100) "10.0.0.9" = some { request_count := 100, window_start := 0 } := by
  refine ⟨by decide, by decide, by decide, by decide, by decide, fun fuel => ?_, by decide,
    by decide, by decide, by decide, by decide, ?_, by decide⟩
  · rw [Secure.check_rate_limit_at_ceiling fuel (Secure.sample_table 100 0 0) true "10.0.0.9" 60
      (Secure.sample_row 100 0 0) (by decide) (by decide) (by decide) (by decide)]
  · simp [check_rate_limit, sample_table, RATE_LIMIT_WINDOW, RATE_LIMIT_MAX_REQUESTS]
    decide

/-! ### Failing lookups and `authenticate_user` -/

/-- Claim C23: when the lookup statement of `check_rate_limit` cannot be prepared, the function
returns 1 (the request is allowed) and the rate-limit table is the one before the call, in
`production_server_v3.c` and in `production_server_secure.c` alike, whatever the address, the
time and the state of the table. -/
theorem lookup_failure_allows (fuel : Nat) (table : RateLimitTable)
    (secure_table : Secure.RateLimitTable) (write_ok : Bool) (ip_address : String) (now : Int) :
    check_rate_limit table false write_ok ip_address now = (1, table) ∧
      Secure.check_rate_limit fuel secure_table false write_ok ip_address now =
        (some 1, secure_table) := by
  constructor <;> rfl

/-- An update by `user_id` that keeps `username` and `is_active` turns the row that the lookup
finds into its changed version. -/
theorem find?_update_where_user_id (users : List UserRow) (username : String) (row : UserRow)
    (change : UserRow → UserRow)
    (hname : ∀ r, (change r).username = r.username)
    (hact : ∀ r, (change r).is_active = r.is_active)
    (hfind : users.find? (fun r => decide (r.username = username ∧ r.is_active = 1)) = some row) :
    (update_where_user_id users row.user_id change).find?
        (fun r => decide (r.username = username ∧ r.is_active = 1)) = some (change row) := by
  unfold update_where_user_id
  rw [List.find?_map]
  have : ((fun r : UserRow => decide (r.username = username ∧ r.is_active = 1)) ∘
      fun r : UserRow => if r.user_id = row.user_id then change r else r) =
      fun r => decide (r.username = username ∧ r.is_active = 1) := by
    funext r
    simp only [Function.comp]
    split
    · rw [hname, hact]
    · rfl
  rw [this, hfind]
  simp

/-- One wrong password for an unlocked user: the call returns 0, the counter goes up by one, and
`locked_until` becomes `now + 1800` exactly when the counter after the increment is at least
5. -/
theorem authenticate_user_wrong (users : List UserRow) (username password : String) (now : Int)
    (row : UserRow)
    (hfind : users.find? (fun r => decide (r.username = username ∧ r.is_active = 1)) = some row)
    (hid1 : -2147483648 ≤ row.user_id) (hid2 : row.user_id ≤ 2147483647)
    (hc1 : -2147483648 ≤ row.failed_attempts) (hc2 : row.failed_attempts ≤ 2147483647)
    (hfree : row.locked_until ≤ now)
    (hwrong : verify_password password row.salt row.password_hash = false) :
    (authenticate_user users true true true username password now).1 = 0 ∧
      (authenticate_user users true true true username password now).2.find?
          (fun r => decide (r.username = username ∧ r.is_active = 1)) =
        some { row with
               failed_attempts := row.failed_attempts + 1,
               locked_until :=
                 if row.failed_attempts + 1 ≥ 5 then now + 1800 else row.locked_until } := by
  have hnot : ¬ (row.locked_until > now) := by omega
  unfold authenticate_user
  simp only [if_true, hfind, hnot, if_false, hwrong, Bool.false_eq_true,
    wrapInt32_of_range hid1 hid2, wrapInt32_of_range hc1 hc2]
  have h1 := find?_update_where_user_id users username row
    (fun r => { r with failed_attempts := r.failed_attempts + 1 }) (fun _ => rfl) (fun _ => rfl)
    hfind
  by_cases h4 : row.failed_attempts ≥ 4
  · have h5 : row.failed_attempts + 1 ≥ 5 := by omega
    simp only [h4, h5, if_true, lock_user_account]
    refine ⟨trivial, ?_⟩
    exact find?_update_where_user_id _ username _
      (fun r => { r with locked_until := now + 1800 }) (fun _ => rfl) (fun _ => rfl) h1
  · have h5 : ¬ (row.failed_attempts + 1 ≥ 5) := by omega
    simp only [h4, h5, if_false]
    exact ⟨trivial, h1⟩

/-- Wrong passwords that keep the counter at 4 or less only count up. -/
theorem authenticate_all_below_threshold (username : String) :
    ∀ (attempts : List Attempt) (users : List UserRow) (row : UserRow),
      users.find? (fun r => decide (r.username = username ∧ r.is_active = 1)) = some row →
      -2147483648 ≤ row.user_id → row.user_id ≤ 2147483647 →
      0 ≤ row.failed_attempts → row.failed_attempts + attempts.length ≤ 4 →
      (∀ a ∈ attempts, row.locked_until ≤ a.now ∧
        verify_password a.password row.salt row.password_hash = false) →
      (authenticate_all users username attempts).find?
          (fun r => decide (r.username = username ∧ r.is_active = 1)) =
        some { row with failed_attempts := row.failed_attempts + attempts.length } := by
  intro attempts
  induction attempts with
  | nil =>
    intro users row hfind _ _ _ _ _
    simpa [authenticate_all] using hfind
  | cons a rest ih =>
    intro users row hfind hid1 hid2 h0 hlen hall
    have ha := hall a (List.mem_cons_self _ _)
    have hstep := (authenticate_user_wrong users username a.password a.now row hfind hid1 hid2
      (by omega) (by omega) ha.1 ha.2).2
    simp only [List.length_cons, Nat.cast_add, Nat.cast_one] at hlen
    have h5 : ¬ (row.failed_attempts + 1 ≥ 5) := by omega
    rw [if_neg h5] at hstep
    have := ih (authenticate_user users true true true username a.password a.now).2 _ hstep
      hid1 hid2 (by dsimp only; omega) (by dsimp only; omega)
      (fun b hb => hall b (List.mem_cons_of_mem _ hb))
    simp only [authenticate_all, List.foldl_cons] at this ⊢
    rw [this]
    simp only [List.length_cons, Nat.cast_add, Nat.cast_one]
    congr 2
    omega

/-- Claim C24: take an active user whose stored `failed_attempts` is 0 and any run of at most
five consecutive `authenticate_user` calls with wrong passwords, each made while the account is
not locked (statements preparing). After each of the first four the counter is the number of
failures so far and `locked_until` is what it was; the call returns 0 each time; after the one
that brings the counter to `n` the account has `locked_until = now + 1800` exactly when
`n >= 5`, that is on the fifth. More generally, for any stored counter of an unlocked user a
wrong password sets `locked_until = now + 1800` exactly when the counter after the increment is
at least 5. -/
theorem fifth_wrong_password_locks (users : List UserRow) (username : String) (row : UserRow)
    (attempts : List Attempt) (last : Attempt)
    (hfind : users.find? (fun r => decide (r.username = username ∧ r.is_active = 1)) = some row)
    (hid : -2147483648 ≤ row.user_id ∧ row.user_id ≤ 2147483647)
    (hzero : row.failed_attempts = 0)
    (hlen : attempts.length ≤ 4)
    (hall : ∀ a ∈ attempts ++ [last], row.locked_until ≤ a.now ∧
      verify_password a.password row.salt row.password_hash = false) :
    (authenticate_all users username attempts).find?
          (fun r => decide (r.username = username ∧ r.is_active = 1)) =
        some { row with failed_attempts := attempts.length } ∧
      (authenticate_user (authenticate_all users username attempts) true true true username
          last.password last.now).1 = 0 ∧
      (authenticate_all users username (attempts ++ [last])).find?
          (fun r => decide (r.username = username ∧ r.is_active = 1)) =
        some { row with
               failed_attempts := attempts.length + 1,
               locked_until :=
                 if (attempts.length : Int) + 1 ≥ 5 then last.now + 1800
                 else row.locked_until } ∧
      (∀ (users1 : List UserRow) (row1 : UserRow) (password : String) (now : Int),
        users1.find? (fun r => decide (r.username = username ∧ r.is_active = 1)) = some row1 →
        (-2147483648 ≤ row1.user_id ∧ row1.user_id ≤ 2147483647) →
        (-2147483648 ≤ row1.failed_attempts ∧ row1.failed_attempts ≤ 2147483647) →
        row1.locked_until ≤ now →
        verify_password password row1.salt row1.password_hash = false →
        (authenticate_user users1 true true true username password now).2.find?
            (fun r => decide (r.username = username ∧ r.is_active = 1)) =
          some { row1 with
                 failed_attempts := row1.failed_attempts + 1,
                 locked_until :=
                   if row1.failed_attempts + 1 ≥ 5 then now + 1800 else row1.locked_until }) := by
  have hbelow := authenticate_all_below_threshold username attempts users row hfind hid.1 hid.2
    (by omega) (by omega) (fun a ha => hall a (List.mem_append_left _ ha))
  rw [hzero, zero_add] at hbelow
  have hl := hall last (List.mem_append_right _ (List.mem_singleton_self _))
  have hstep := authenticate_user_wrong (authenticate_all users username attempts) username
    last.password last.now _ hbelow hid.1 hid.2 (by dsimp only; omega) (by dsimp only; omega)
    hl.1 hl.2
  refine ⟨hbelow, hstep.1, ?_, ?_⟩
  · have : authenticate_all users username (attempts ++ [last]) =
        (authenticate_user (authenticate_all users username attempts) true true true username
          last.password last.now).2 := by
      simp [authenticate_all, List.foldl_append]
    rw [this, hstep.2]
  · intro users1 row1 password now hfind1 hid1 hc1 hfree1 hwrong1
    exact (authenticate_user_wrong users1 username password now row1 hfind1 hid1.1 hid1.2
      hc1.1 hc1.2 hfree1 hwrong1).2

/-- Claim C24 on `alice` with no failed attempts: after four wrong passwords at times 10 to 40
the counter is 4 and she is not locked; after the fifth, at time 50, the counter is 5 and
`locked_until = 1850`. -/
theorem fifth_wrong_password_locks_witness :
    (authenticate_all [sample_user_row 0 0] "alice"
        ([⟨"bad", 10⟩, ⟨"bad", 20⟩, ⟨"bad", 30⟩, ⟨"bad", 40⟩] ++ [⟨"bad", 50⟩])).find?
        (fun r => decide (r.username = "alice" ∧ r.is_active = 1)) =
      some (sample_user_row 5 1850) ∧
    (authenticate_all [sample_user_row 0 0] "alice"
        [⟨"bad", 10⟩, ⟨"bad", 20⟩, ⟨"bad", 30⟩, ⟨"bad", 40⟩]).find?
        (fun r => decide (r.username = "alice" ∧ r.is_active = 1)) =
      some (sample_user_row 4 0) :=
  ⟨(fifth_wrong_password_locks [sample_user_row 0 0] "alice" (sample_user_row 0 0)
      [⟨"bad", 10⟩, ⟨"bad", 20⟩, ⟨"bad", 30⟩, ⟨"bad", 40⟩] ⟨"bad", 50⟩ (by decide) (by decide)
      (by decide) (by decide) (by decide)).2.2.1,
   (fifth_wrong_password_locks [sample_user_row 0 0] "alice" (sample_user_row 0 0)
      [⟨"bad", 10⟩, ⟨"bad", 20⟩, ⟨"bad", 30⟩, ⟨"bad", 40⟩] ⟨"bad", 50⟩ (by decide) (by decide)
      (by decide) (by decide) (by decide)).1⟩

end V3

end TaskScheduler
